import Mathlib

set_option maxHeartbeats 1000000

/-!
Verification of the managed-element reconciliation engine of
`dagster_airbyte/managed/reconciliation.py`.

The Python module is embedded shallowly below:

* JSON-shaped request payloads and entity configurations become the
  inductive type `JsonV`; Python dictionaries become association lists
  with Python-dict insertion semantics (`dictOf`, `dinsert`, `alookup`).
* The auxiliary modules that are imported by `reconciliation.py` but whose
  sources are not part of this tree (`dagster_managed_elements`,
  `dagster_airbyte.managed.types`, `dagster_airbyte.resources`,
  `dagster_airbyte.utils`, `dagster._utils.merger`) are modelled from the
  design spec; each such definition carries a doc comment starting with
  `Modelled from the spec:`.
* Remote API traffic is captured by the writer-style monad `RecM`: every
  request appends an `ApiCall` to a trace, and Python exceptions become
  `Except.error`.  The remote service itself is an oracle `ApiEnv` whose
  fields answer the read-only queries and supply the identifiers returned
  by create calls.
-/

/-- A JSON-like value: the shape of Airbyte API payloads and of the
`connectionConfiguration` dictionaries carried by sources and destinations. -/
inductive JsonV where
  | s (v : String)
  | b (v : Bool)
  | i (v : Int)
  | null
  | obj (fields : List (String × JsonV))
  | arr (items : List JsonV)

mutual

/-- Structural equality test on JSON values (Python `==`, with dictionaries
compared as the ordered structures of spec 4.1). -/
def JsonV.beq : JsonV → JsonV → Bool
  | .s a, .s c => a == c
  | .b a, .b c => a == c
  | .i a, .i c => a == c
  | .null, .null => true
  | .obj fa, .obj fb => JsonV.beqFields fa fb
  | .arr xa, .arr xb => JsonV.beqArr xa xb
  | _, _ => false

/-- Equality test on JSON dictionaries, key order included. -/
def JsonV.beqFields : List (String × JsonV) → List (String × JsonV) → Bool
  | [], [] => true
  | (k1, v1) :: r1, (k2, v2) :: r2 => k1 == k2 && JsonV.beq v1 v2 && JsonV.beqFields r1 r2
  | _, _ => false

/-- Elementwise equality test on JSON arrays. -/
def JsonV.beqArr : List JsonV → List JsonV → Bool
  | [], [] => true
  | x :: xs, y :: ys => JsonV.beq x y && JsonV.beqArr xs ys
  | _, _ => false

end

/-- First-match lookup in an association list (Python `dict.get`). -/
def alookup {α : Type} (k : String) : List (String × α) → Option α
  | [] => none
  | (k2, v) :: rest => if k2 = k then some v else alookup k rest

/-- Python `dict` assignment: overwrite in place if the key exists (keys are
unique), else append. -/
def dinsert {α : Type} : List (String × α) → String → α → List (String × α)
  | [], k, v => [(k, v)]
  | (k2, v2) :: tl, k, v =>
    if k2 = k then (k, v) :: tl else (k2, v2) :: dinsert tl k v

/-- Python dict built from a list of key-value pairs (later pairs overwrite). -/
def dictOf {α : Type} (xs : List (String × α)) : List (String × α) :=
  xs.foldl (fun m p => dinsert m p.1 p.2) []

/-- Stable first-occurrence de-duplication of a key list. -/
def dedupFirst (seen : List String) : List String → List String
  | [] => []
  | k :: rest =>
    if k ∈ seen then dedupFirst seen rest else k :: dedupFirst (k :: seen) rest

/-- Key set of the union of two dictionaries, in a fixed deterministic order
(the Python code iterates a `set` union, whose order is arbitrary). -/
def unionKeys {α β : Type} (a : List (String × α)) (b : List (String × β)) : List String :=
  dedupFirst [] (a.map (fun p => p.1) ++ b.map (fun p => p.1))

/-- Modelled from the spec: `ManagedElementDiff` of `dagster_managed_elements`
(outside src/).  A diff tree with added / removed / changed leaves plus named
nested sub-trees (spec 4.1). -/
inductive ManagedElementDiff where
  | mk (additions : List (String × JsonV)) (deletions : List (String × JsonV))
      (modifications : List (String × JsonV × JsonV))
      (nested : List (String × ManagedElementDiff))

def ManagedElementDiff.additions : ManagedElementDiff → List (String × JsonV)
  | .mk a _ _ _ => a

def ManagedElementDiff.deletions : ManagedElementDiff → List (String × JsonV)
  | .mk _ d _ _ => d

def ManagedElementDiff.modifications : ManagedElementDiff → List (String × JsonV × JsonV)
  | .mk _ _ m _ => m

def ManagedElementDiff.nested : ManagedElementDiff → List (String × ManagedElementDiff)
  | .mk _ _ _ n => n

/-- The empty diff (Python `ManagedElementDiff()`). -/
def ManagedElementDiff.empty : ManagedElementDiff := .mk [] [] [] []

/-- Modelled from the spec: `DiffTree.isEmpty` is true iff no
added/removed/changed leaves exist anywhere in the tree (spec 4.1). -/
def ManagedElementDiff.is_empty : ManagedElementDiff → Bool
  | .mk adds dels mods nested =>
    adds.isEmpty && dels.isEmpty && mods.isEmpty &&
      nested.attach.all (fun p =>
        have h1 : sizeOf p.1 < sizeOf nested := List.sizeOf_lt_of_mem p.2
        have h2 : sizeOf p.1.2 ≤ sizeOf p.1 := by
          obtain ⟨x, y⟩ := p.1
          simp only [Prod.mk.sizeOf_spec]
          omega
        p.1.2.is_empty)
termination_by d => sizeOf d
decreasing_by
  simp only [ManagedElementDiff.mk.sizeOf_spec]
  omega

/-- Modelled from the spec: `ManagedElementDiff.join` merges two diff trees
without loss (spec 4.1). -/
def ManagedElementDiff.join (a b : ManagedElementDiff) : ManagedElementDiff :=
  .mk (a.additions ++ b.additions) (a.deletions ++ b.deletions)
    (a.modifications ++ b.modifications) (a.nested ++ b.nested)

/-- Modelled from the spec: `ManagedElementDiff.with_nested name sub` records
`sub` nested under the entity name `name` (spec 4.2 step 2). -/
def ManagedElementDiff.with_nested (d : ManagedElementDiff) (name : String)
    (sub : ManagedElementDiff) : ManagedElementDiff :=
  .mk d.additions d.deletions d.modifications (d.nested ++ [(name, sub)])

theorem alookup_sizeOf {k : String} {v : JsonV} :
    ∀ {as : List (String × JsonV)}, alookup k as = some v → sizeOf v < sizeOf as := by
  intro as
  induction as with
  | nil => intro h; simp [alookup] at h
  | cons hd tl ih =>
    intro h
    obtain ⟨k2, v2⟩ := hd
    by_cases hk : k2 = k
    · subst hk
      simp [alookup] at h
      subst h
      simp only [List.cons.sizeOf_spec, Prod.mk.sizeOf_spec]
      omega
    · simp [alookup, hk] at h
      have := ih h
      simp only [List.cons.sizeOf_spec, Prod.mk.sizeOf_spec]
      omega

/-- Modelled from the spec: the recursive key-by-key comparison inside
`diff_dicts` of `dagster_managed_elements.utils` (outside src/): a key present
on only one side is an addition/deletion, unequal values are a modification,
and two nested dictionaries are compared recursively, the sub-diff being
recorded under the key (spec 4.1). -/
def diff_keys : List String → List (String × JsonV) → List (String × JsonV) → ManagedElementDiff
  | [], _, _ => ManagedElementDiff.empty
  | k :: ks, a, b =>
    let rest := diff_keys ks a b
    match h1 : alookup k a, h2 : alookup k b with
    | some va, none =>
      ManagedElementDiff.mk ((k, va) :: rest.additions) rest.deletions rest.modifications rest.nested
    | none, some vb =>
      ManagedElementDiff.mk rest.additions ((k, vb) :: rest.deletions) rest.modifications rest.nested
    | some (JsonV.obj fa), some (JsonV.obj fb) =>
      ManagedElementDiff.mk rest.additions rest.deletions rest.modifications
        ((k, diff_keys (unionKeys fa fb) fa fb) :: rest.nested)
    | some va, some vb =>
      if JsonV.beq va vb then rest
      else ManagedElementDiff.mk rest.additions rest.deletions ((k, va, vb) :: rest.modifications) rest.nested
    | none, none => rest
termination_by ks a b => (sizeOf a + sizeOf b, ks.length)
decreasing_by
  · apply Prod.Lex.right
    simp
  · apply Prod.Lex.left
    have ha := alookup_sizeOf h1
    have hb := alookup_sizeOf h2
    simp only [JsonV.obj.sizeOf_spec] at ha hb
    omega

/-- Modelled from the spec: `diff_dicts` of `dagster_managed_elements.utils`
(outside src/) — the structural diff of two configuration dictionaries,
config side first (spec 4.1). -/
def diff_dicts (config_dict curr_dict : List (String × JsonV)) : ManagedElementDiff :=
  diff_keys (unionKeys config_dict curr_dict) config_dict curr_dict

mutual

/-- Modelled from the spec: `deep_merge_dicts` of `dagster._utils.merger`
(outside src/): keys of the second dictionary override the first, except that
two nested dictionaries are merged recursively (spec 4.5 merges the configured
sync-mode pair onto the discovered stream descriptor). -/
def deep_merge_fields : List (String × JsonV) → List (String × JsonV) → List (String × JsonV)
  | onto, [] => onto
  | onto, (k, v) :: rest => deep_merge_fields (deep_merge_one onto k v) rest
termination_by onto fr => sizeOf fr

/-- One key of the overriding dictionary merged into `onto`: two nested
dictionaries merge recursively, any other value overrides. -/
def deep_merge_one : List (String × JsonV) → String → JsonV → List (String × JsonV)
  | onto, k, JsonV.obj ob =>
    (match alookup k onto with
     | some (JsonV.obj oa) => dinsert onto k (JsonV.obj (deep_merge_fields oa ob))
     | _ => dinsert onto k (JsonV.obj ob))
  | onto, k, v => dinsert onto k v
termination_by onto k v => sizeOf v

end

/-- One request issued to the Airbyte instance: the endpoint together with the
JSON payload. -/
structure ApiCall where
  endpoint : String
  data : List (String × JsonV)

/-- Writer-style execution monad for the reconciler: a computation yields an
`Except` result (Python exceptions become `Except.error`) together with the
list of API calls issued, in order.  A Python exception aborts the rest of the
computation but keeps the calls issued so far. -/
structure RecM (α : Type) where
  result : Except String α
  trace : List ApiCall

def RecM.pureR {α : Type} (a : α) : RecM α := ⟨Except.ok a, []⟩

def RecM.bindR {α β : Type} (x : RecM α) (f : α → RecM β) : RecM β :=
  match x.result with
  | Except.error e => ⟨Except.error e, x.trace⟩
  | Except.ok v => ⟨(f v).result, x.trace ++ (f v).trace⟩

instance : Monad RecM where
  pure := RecM.pureR
  bind := RecM.bindR

/-- Raise a Python exception. -/
def RecM.throwErr {α : Type} (e : String) : RecM α := ⟨Except.error e, []⟩

/-- Issue one API request (the oracle's response is read separately). -/
def RecM.callApi (c : ApiCall) : RecM Unit := ⟨Except.ok (), [c]⟩

/-- Lift a pure fallible computation. -/
def RecM.liftE {α : Type} (e : Except String α) : RecM α := ⟨e, []⟩

/-- `dagster._check.not_none` (outside src/): raise if the value is `None`. -/
def check_not_none {α : Type} (x : Option α) : RecM α :=
  match x with
  | some a => RecM.pureR a
  | none => RecM.throwErr "check.not_none failed"

/-- Python `d[k]`: raise `KeyError` when the key is absent. -/
def dict_index {α : Type} (m : List (String × α)) (k : String) : RecM α :=
  match alookup k m with
  | some v => RecM.pureR v
  | none => RecM.throwErr ("KeyError: " ++ k)

@[simp] theorem RecM.result_pure {α : Type} (a : α) :
    (pure a : RecM α).result = Except.ok a := rfl

@[simp] theorem RecM.trace_pure {α : Type} (a : α) :
    (pure a : RecM α).trace = [] := rfl

theorem RecM.bind_def {α β : Type} (x : RecM α) (f : α → RecM β) :
    x >>= f = RecM.bindR x f := rfl

@[simp] theorem RecM.bind_ok {α β : Type} (v : α) (t : List ApiCall) (f : α → RecM β) :
    (RecM.mk (Except.ok v) t >>= f) = ⟨(f v).result, t ++ (f v).trace⟩ := rfl

@[simp] theorem RecM.bind_error {α β : Type} (e : String) (t : List ApiCall) (f : α → RecM β) :
    (RecM.mk (Except.error e) t >>= f) = ⟨Except.error e, t⟩ := rfl

/-- The per-stream sync intent (`AirbyteSyncMode` of
`dagster_airbyte.managed.types`, outside src/).  Modelled from the spec:
a named sync-mode pair (syncMode, destinationSyncMode) (spec 3). -/
structure AirbyteSyncMode where
  name : String
  value : String × String
deriving DecidableEq, Repr

/-- Modelled from the spec: `AirbyteSource` of `dagster_airbyte.managed.types`
(outside src/): name, immutable type, opaque configuration (spec 3). -/
structure AirbyteSource where
  name : String
  source_type : String
  source_configuration : List (String × JsonV)

/-- Modelled from the spec: `AirbyteDestination`, symmetric to Source (spec 3). -/
structure AirbyteDestination where
  name : String
  destination_type : String
  destination_configuration : List (String × JsonV)

/-- Modelled from the spec: `AirbyteConnection` (spec 3): name, referenced
source and destination, tri-state normalization intent, per-stream sync modes. -/
structure AirbyteConnection where
  name : String
  source : AirbyteSource
  destination : AirbyteDestination
  normalize_data : Option Bool
  stream_config : List (String × AirbyteSyncMode)

/-- `InitializedAirbyteSource` of `dagster_airbyte.managed.types` (outside
src/), rendered as `InitedAirbyteSource`.  Modelled from the spec: the source
paired with its remote id and remote definition id (spec 3). -/
structure InitedAirbyteSource where
  source : AirbyteSource
  source_id : String
  source_definition_id : Option String

/-- `InitializedAirbyteDestination` rendered as `InitedAirbyteDestination`.
Modelled from the spec: symmetric to the source version (spec 3). -/
structure InitedAirbyteDestination where
  destination : AirbyteDestination
  destination_id : String
  destination_definition_id : Option String

/-- `InitializedAirbyteConnection` rendered as `InitedAirbyteConnection`.
Modelled from the spec: the connection paired with its remote id (spec 3). -/
structure InitedAirbyteConnection where
  connection : AirbyteConnection
  connection_id : String

/-- Modelled from the spec: `AirbyteSource.must_be_recreated` (types.py is
outside src/): an entity's immutable `type`, once created remotely, can never
be changed in place — any divergence forces delete-then-recreate (spec 3, 4.2
step 3). -/
def AirbyteSource.must_be_recreated (cfg other : AirbyteSource) : Bool :=
  cfg.source_type != other.source_type

/-- Modelled from the spec: `AirbyteDestination.must_be_recreated`, symmetric
to the source version (spec 3, 4.2 step 3). -/
def AirbyteDestination.must_be_recreated (cfg other : AirbyteDestination) : Bool :=
  cfg.destination_type != other.destination_type

/-- Modelled from the spec: `AirbyteConnection.must_be_recreated` (types.py is
outside src/): a connection must be torn down iff its referenced source or
destination will be deleted or recreated, recomputed with the same recreate
predicate applied to the referenced entities (spec 4.3 pre-phase). -/
def AirbyteConnection.must_be_recreated (cfg : AirbyteConnection) (other : AirbyteConnection) : Bool :=
  cfg.source.must_be_recreated other.source ||
    cfg.destination.must_be_recreated other.destination

/-- The decoded JSON record of one source returned by `/sources/list`. -/
structure SourceApiJson where
  name : String
  sourceId : String
  sourceDefinitionId : String
  sourceName : String
  connectionConfiguration : List (String × JsonV)

/-- The decoded JSON record of one destination returned by `/destinations/list`. -/
structure DestApiJson where
  name : String
  destinationId : String
  destinationDefinitionId : String
  destinationName : String
  connectionConfiguration : List (String × JsonV)

/-- The decoded JSON record of one connection returned by `/connections/list`. -/
structure ConnApiJson where
  name : String
  connectionId : String
  sourceId : String
  destinationId : String
  normalize_data : Option Bool
  stream_config : List (String × AirbyteSyncMode)

/-- The decoded JSON record of one operation returned by `/operations/list`. -/
structure OperationJson where
  operationId : String
  operatorType : String
  normalizationOption : String
deriving DecidableEq, Repr

/-- Modelled from the spec: `dagster_airbyte.utils.is_basic_normalization_operation`
(outside src/): an operation matching the basic-normalization signature
(spec 4.4, 6: operator type "normalization", option "basic"). -/
def is_basic_normalization_operation (op : OperationJson) : Bool :=
  op.operatorType == "normalization" && op.normalizationOption == "basic"

/-- Modelled from the spec: `InitializedAirbyteSource.from_api_json` (types.py
is outside src/): pure decode of a fetched source record (spec 2
RemoteInventory, spec 3). -/
def InitedAirbyteSource.from_api_json (j : SourceApiJson) : InitedAirbyteSource :=
  { source :=
      { name := j.name
        source_type := j.sourceName
        source_configuration := j.connectionConfiguration }
    source_id := j.sourceId
    source_definition_id := some j.sourceDefinitionId }

/-- Modelled from the spec: `InitializedAirbyteDestination.from_api_json`
(types.py is outside src/): pure decode of a fetched destination record. -/
def InitedAirbyteDestination.from_api_json (j : DestApiJson) : InitedAirbyteDestination :=
  { destination :=
      { name := j.name
        destination_type := j.destinationName
        destination_configuration := j.connectionConfiguration }
    destination_id := j.destinationId
    destination_definition_id := some j.destinationDefinitionId }

/-- Modelled from the spec: `InitializedAirbyteConnection.from_api_json`
(types.py is outside src/): decode a fetched connection record against the
given source/destination maps, resolving the remote ids it references
(spec 4.3: connections are decoded against the pre- or post-reconciliation
maps).  A dangling reference is a decode failure. -/
def InitedAirbyteConnection.from_api_json (j : ConnApiJson)
    (sources : List (String × InitedAirbyteSource))
    (dests : List (String × InitedAirbyteDestination)) :
    Except String InitedAirbyteConnection :=
  match (sources.map (fun p => p.2)).find? (fun s => s.source_id == j.sourceId),
      (dests.map (fun p => p.2)).find? (fun d => d.destination_id == j.destinationId) with
  | some s, some d =>
    Except.ok
      { connection :=
          { name := j.name
            source := s.source
            destination := d.destination
            normalize_data := j.normalize_data
            stream_config := j.stream_config }
        connection_id := j.connectionId }
  | _, _ => Except.error ("connection " ++ j.name ++ " references an unknown source or destination")

/-- The remote Airbyte instance as a response oracle.  Read-only queries are
answered by the fields below; identifiers assigned by create calls are drawn
from the `new_*` fields.  The two `connections_response_*` fields are the
responses to the first (pre-phase) and second (post-phase) `/connections/list`
requests, in that order. -/
structure ApiEnv where
  default_workspace : String
  sources_response : List SourceApiJson
  destinations_response : List DestApiJson
  connections_response_a : List ConnApiJson
  connections_response_b : List ConnApiJson
  source_defn_of : String → String → Option String
  destination_defn_of : String → String → Option String
  supports_normalization : String → String → Bool
  operations_response : String → List OperationJson
  schema_response : String → List JsonV
  catalog_id_of : String → String
  new_source_id : String → String
  new_destination_id : String → String
  new_operation_id : String → String

/-- `AirbyteResource.get_default_workspace` (resources.py is outside src/).
Modelled from the spec: a read-only workspace-context lookup (spec 4.6). -/
def ApiEnv.get_default_workspace (res : ApiEnv) : RecM String := do
  RecM.callApi ⟨ "workspace/get", []⟩
  pure res.default_workspace

/-- `AirbyteResource.get_source_definition_by_name` (outside src/).  Modelled
from the spec: resolve a human-readable source type name to a remote
definition id within a workspace; read-only (spec 6). -/
def ApiEnv.get_source_definition_by_name (res : ApiEnv) (name workspace_id : String) :
    RecM (Option String) := do
  RecM.callApi ⟨ "source_definitions/lookup", [("name", JsonV.s name), ("workspaceId", JsonV.s workspace_id)]⟩
  pure (res.source_defn_of name workspace_id)

/-- `AirbyteResource.get_destination_definition_by_name` (outside src/).
Modelled from the spec: the destination-side definition-id lookup (spec 6). -/
def ApiEnv.get_destination_definition_by_name (res : ApiEnv) (name workspace_id : String) :
    RecM (Option String) := do
  RecM.callApi ⟨ "destination_definitions/lookup", [("name", JsonV.s name), ("workspaceId", JsonV.s workspace_id)]⟩
  pure (res.destination_defn_of name workspace_id)

/-- `AirbyteResource.does_dest_support_normalization` (outside src/).  Modelled
from the spec: a read-only capability lookup on the destination definition
(spec 4.4). -/
def ApiEnv.does_dest_support_normalization (res : ApiEnv)
    (destination_definition_id workspace_id : String) : RecM Bool := do
  RecM.callApi ⟨ "normalization/supports", [("destinationDefinitionId", JsonV.s destination_definition_id), ("workspaceId", JsonV.s workspace_id)]⟩
  pure (res.supports_normalization destination_definition_id workspace_id)

/-- `AirbyteResource.get_source_schema` (outside src/).  Modelled from the
spec: schema discovery returning the source's catalog of streams (spec 6);
the oracle returns the stream list found under `catalog.streams`. -/
def ApiEnv.get_source_schema (res : ApiEnv) (source_id : String) : RecM (List JsonV) := do
  RecM.callApi ⟨ "source/schema", [("sourceId", JsonV.s source_id)]⟩
  pure (res.schema_response source_id)

/-- `AirbyteResource.get_source_catalog_id` (outside src/).  Modelled from the
spec: resolve a source id to its current catalog id (spec 6). -/
def ApiEnv.get_source_catalog_id (res : ApiEnv) (source_id : String) : RecM String := do
  RecM.callApi ⟨ "source/catalog_id", [("sourceId", JsonV.s source_id)]⟩
  pure (res.catalog_id_of source_id)

/-- `diff_sources` (reconciliation.py lines 50-64): diff the configuration
dictionaries of two optional sources; a non-empty diff is nested under the
entity name, preferring the configured side's name. -/
def diff_sources (config_src curr_src : Option AirbyteSource) : ManagedElementDiff :=
  let diff := diff_dicts
    (match config_src with | some c => c.source_configuration | none => [])
    (match curr_src with | some c => c.source_configuration | none => [])
  if !diff.is_empty then
    let name := match config_src with
      | some c => c.name
      | none => match curr_src with
        | some c => c.name
        | none => "Unknown"
    ManagedElementDiff.empty.with_nested name diff
  else ManagedElementDiff.empty

/-- `diff_destinations` (reconciliation.py lines 67-81). -/
def diff_destinations (config_dst curr_dst : Option AirbyteDestination) : ManagedElementDiff :=
  let diff := diff_dicts
    (match config_dst with | some c => c.destination_configuration | none => [])
    (match curr_dst with | some c => c.destination_configuration | none => [])
  if !diff.is_empty then
    let name := match config_dst with
      | some c => c.name
      | none => match curr_dst with
        | some c => c.name
        | none => "Unknown"
    ManagedElementDiff.empty.with_nested name diff
  else ManagedElementDiff.empty

/-- `conn_dict` (reconciliation.py lines 84-92): the comparison record derived
from a connection (source name, destination name, normalize flag, per-stream
sync-mode names). -/
def conn_dict (conn : Option AirbyteConnection) : List (String × JsonV) :=
  match conn with
  | none => []
  | some conn =>
    [("source", JsonV.s conn.source.name),
     ("destination", JsonV.s conn.destination.name),
     ("normalize data", match conn.normalize_data with
       | some v => JsonV.b v
       | none => JsonV.null),
     ("streams", JsonV.obj (conn.stream_config.map (fun p => (p.1, JsonV.s p.2.name))))]

/-- `diff_connections` (reconciliation.py lines 95-106). -/
def diff_connections (config_conn curr_conn : Option AirbyteConnection) : ManagedElementDiff :=
  let diff := diff_dicts (conn_dict config_conn) (conn_dict curr_conn)
  if !diff.is_empty then
    let name := match config_conn with
      | some c => c.name
      | none => match curr_conn with
        | some c => c.name
        | none => "Unknown"
    ManagedElementDiff.empty.with_nested name diff
  else ManagedElementDiff.empty

/-- The loop body of `reconcile_sources` (reconciliation.py lines 125-186),
for one `source_name` of the key union, threading the result map and diff. -/
def reconcile_sources_step (res : ApiEnv) (config_sources : List (String × AirbyteSource))
    (existing_sources : List (String × InitedAirbyteSource)) (workspace_id : String)
    (dry_run should_delete : Bool) (source_name : String)
    (acc : List (String × InitedAirbyteSource) × ManagedElementDiff) :
    RecM (List (String × InitedAirbyteSource) × ManagedElementDiff) :=
  match alookup source_name config_sources, alookup source_name existing_sources with
  -- "Ignore sources not mentioned in the user config unless the user specifies to delete"
  | none, some e =>
    if !should_delete then
      pure (dinsert acc.1 source_name e, acc.2)
    else do
      let diff := acc.2.join (diff_sources none (some e.source))
      -- delete branch (configured absent): record the observed instance,
      -- delete remotely, and treat the observed instance as absent
      if !dry_run then
        RecM.callApi ⟨ "/sources/delete", [("sourceId", JsonV.s e.source_id)]⟩
      pure (dinsert acc.1 source_name e, diff)
  | none, none => pure (acc.1, acc.2.join (diff_sources none none))
  | some cfg, existing_source => do
    let diff := acc.2.join (diff_sources (some cfg)
      (match existing_source with | some e => some e.source | none => none))
    -- delete-or-recreate decision, after which the observed instance is
    -- treated as absent (`existing_source = None`) and the create path runs
    let del : Bool := match existing_source with
      | some e => cfg.must_be_recreated e.source
      | none => false
    let inited1 := match existing_source, del with
      | some e, true => dinsert acc.1 source_name e
      | _, _ => acc.1
    if del ∧ !dry_run then
      match existing_source with
      | some e => RecM.callApi ⟨ "/sources/delete", [("sourceId", JsonV.s e.source_id)]⟩
      | none => pure ()
    let existing_source2 := if del then none else existing_source
    do
      let defn_id ← check_not_none (← res.get_source_definition_by_name cfg.source_type workspace_id)
      let base_source_defn_dict :=
        [("name", JsonV.s cfg.name),
         ("connectionConfiguration", JsonV.obj cfg.source_configuration)]
      let source_id ←
        match existing_source2 with
        | some e => do
          if !dry_run then
            RecM.callApi ⟨ "/sources/update",
              [("sourceId", JsonV.s e.source_id)] ++ base_source_defn_dict⟩
          pure e.source_id
        | none =>
          if !dry_run then do
            RecM.callApi ⟨ "/sources/create",
              [("sourceDefinitionId", JsonV.s defn_id),
               ("workspaceId", JsonV.s workspace_id)] ++ base_source_defn_dict⟩
            pure (res.new_source_id cfg.name)
          else pure ""
      pure (dinsert inited1 source_name
        { source := cfg, source_id := source_id, source_definition_id := some defn_id }, diff)

/-- The loop of `reconcile_sources` over the union of configured and existing
source names. -/
def reconcile_sources_go (res : ApiEnv) (config_sources : List (String × AirbyteSource))
    (existing_sources : List (String × InitedAirbyteSource)) (workspace_id : String)
    (dry_run should_delete : Bool) :
    List String → List (String × InitedAirbyteSource) × ManagedElementDiff →
    RecM (List (String × InitedAirbyteSource) × ManagedElementDiff)
  | [], acc => pure acc
  | source_name :: rest, acc => do
    let acc2 ← reconcile_sources_step res config_sources existing_sources workspace_id
      dry_run should_delete source_name acc
    reconcile_sources_go res config_sources existing_sources workspace_id
      dry_run should_delete rest acc2

/-- `reconcile_sources` (reconciliation.py lines 109-188): diff the configured
and existing sources and reconcile them to the configured state when
`dry_run` is false. -/
def reconcile_sources (res : ApiEnv) (config_sources : List (String × AirbyteSource))
    (existing_sources : List (String × InitedAirbyteSource)) (workspace_id : String)
    (dry_run should_delete : Bool) :
    RecM (List (String × InitedAirbyteSource) × ManagedElementDiff) :=
  reconcile_sources_go res config_sources existing_sources workspace_id dry_run should_delete
    (unionKeys config_sources existing_sources) ([], ManagedElementDiff.empty)

/-- The loop body of `reconcile_destinations` (reconciliation.py lines
207-270).  Unlike the source version, the delete-or-recreate branch is an
`elif` chain: when the observed destination is deleted, the create/update
branch is skipped for this pass and the observed instance is recorded in the
result map. -/
def reconcile_destinations_step (res : ApiEnv)
    (config_destinations : List (String × AirbyteDestination))
    (existing_destinations : List (String × InitedAirbyteDestination)) (workspace_id : String)
    (dry_run should_delete : Bool) (destination_name : String)
    (acc : List (String × InitedAirbyteDestination) × ManagedElementDiff) :
    RecM (List (String × InitedAirbyteDestination) × ManagedElementDiff) :=
  let configured_destination := alookup destination_name config_destinations
  let existing_destination := alookup destination_name existing_destinations
  -- "Ignore destinations not mentioned in the user config unless the user specifies to delete"
  match configured_destination, existing_destination with
  | none, some e =>
    if !should_delete then
      pure (dinsert acc.1 destination_name e, acc.2)
    else do
      let diff := acc.2.join (diff_destinations none (some e.destination))
      -- delete branch (configured absent): record the observed instance
      if !dry_run then
        RecM.callApi ⟨ "/destinations/delete", [("destinationId", JsonV.s e.destination_id)]⟩
      pure (dinsert acc.1 destination_name e, diff)
  | none, none => pure (acc.1, acc.2.join (diff_destinations none none))
  | some cfg, existing_destination => do
    let diff := acc.2.join (diff_destinations (some cfg)
      (match existing_destination with | some e => some e.destination | none => none))
    match existing_destination with
    | some e =>
      if cfg.must_be_recreated e.destination then do
        -- recreate branch: delete only; the elif skips the create this pass
        if !dry_run then
          RecM.callApi ⟨ "/destinations/delete", [("destinationId", JsonV.s e.destination_id)]⟩
        pure (dinsert acc.1 destination_name e, diff)
      else do
        -- update branch (note: no check_not_none on the definition lookup)
        let defn_id ← res.get_destination_definition_by_name cfg.destination_type workspace_id
        let base_destination_defn_dict :=
          [("name", JsonV.s cfg.name),
           ("connectionConfiguration", JsonV.obj cfg.destination_configuration)]
        if !dry_run then
          RecM.callApi ⟨ "/destinations/update",
            [("destinationId", JsonV.s e.destination_id)] ++ base_destination_defn_dict⟩
        pure (dinsert acc.1 destination_name
          { destination := cfg, destination_id := e.destination_id,
            destination_definition_id := defn_id }, diff)
    | none => do
      let defn_id ← res.get_destination_definition_by_name cfg.destination_type workspace_id
      let base_destination_defn_dict :=
        [("name", JsonV.s cfg.name),
         ("connectionConfiguration", JsonV.obj cfg.destination_configuration)]
      let destination_id ←
        if !dry_run then do
          RecM.callApi ⟨ "/destinations/create",
            [("destinationDefinitionId", match defn_id with
              | some d => JsonV.s d
              | none => JsonV.null),
             ("workspaceId", JsonV.s workspace_id)] ++ base_destination_defn_dict⟩
          pure (res.new_destination_id cfg.name)
        else pure ""
      pure (dinsert acc.1 destination_name
        { destination := cfg, destination_id := destination_id,
          destination_definition_id := defn_id }, diff)

/-- The loop of `reconcile_destinations` over the union of configured and
existing destination names. -/
def reconcile_destinations_go (res : ApiEnv)
    (config_destinations : List (String × AirbyteDestination))
    (existing_destinations : List (String × InitedAirbyteDestination)) (workspace_id : String)
    (dry_run should_delete : Bool) :
    List String → List (String × InitedAirbyteDestination) × ManagedElementDiff →
    RecM (List (String × InitedAirbyteDestination) × ManagedElementDiff)
  | [], acc => pure acc
  | destination_name :: rest, acc => do
    let acc2 ← reconcile_destinations_step res config_destinations existing_destinations
      workspace_id dry_run should_delete destination_name acc
    reconcile_destinations_go res config_destinations existing_destinations workspace_id
      dry_run should_delete rest acc2

/-- `reconcile_destinations` (reconciliation.py lines 191-272). -/
def reconcile_destinations (res : ApiEnv)
    (config_destinations : List (String × AirbyteDestination))
    (existing_destinations : List (String × InitedAirbyteDestination)) (workspace_id : String)
    (dry_run should_delete : Bool) :
    RecM (List (String × InitedAirbyteDestination) × ManagedElementDiff) :=
  reconcile_destinations_go res config_destinations existing_destinations workspace_id
    dry_run should_delete (unionKeys config_destinations existing_destinations)
    ([], ManagedElementDiff.empty)

/-- `gen_configured_stream_json` (reconciliation.py lines 36-47): merge the
configured sync-mode pair onto the full discovered stream descriptor.  The
Python `user_stream_config[source_stream["stream"]["name"]]` indexing raises
`KeyError` on a missing key. -/
def gen_configured_stream_json (source_stream : JsonV)
    (user_stream_config : List (String × AirbyteSyncMode)) : Except String JsonV :=
  match source_stream with
  | JsonV.obj fields =>
    match alookup "stream" fields with
    | some (JsonV.obj sf) =>
      match alookup "name" sf with
      | some (JsonV.s n) =>
        match alookup n user_stream_config with
        | some config =>
          Except.ok (JsonV.obj (deep_merge_fields fields
            [("config", JsonV.obj
              [("syncMode", JsonV.s config.value.1),
               ("destinationSyncMode", JsonV.s config.value.2)])]))
        | none => Except.error ("KeyError: " ++ n)
      | _ => Except.error "KeyError: name"
    | _ => Except.error "KeyError: stream"
  | _ => Except.error "TypeError: stream record is not a dict"

/-- The stream name `stream["stream"]["name"]` used by the filter condition of
the comprehension at reconciliation.py lines 519-523. -/
def stream_json_name (source_stream : JsonV) : Except String String :=
  match source_stream with
  | JsonV.obj fields =>
    match alookup "stream" fields with
    | some (JsonV.obj sf) =>
      match alookup "name" sf with
      | some (JsonV.s n) => Except.ok n
      | _ => Except.error "KeyError: name"
    | _ => Except.error "KeyError: stream"
  | _ => Except.error "TypeError: stream record is not a dict"

/-- The list comprehension of `reconcile_connections_post` (reconciliation.py
lines 519-523): keep the discovered streams whose names are keys of the user's
stream config, in catalog order, merged with the configured sync-mode pair. -/
def build_configured_streams (base_streams : List JsonV)
    (user_stream_config : List (String × AirbyteSyncMode)) : Except String (List JsonV) :=
  match base_streams with
  | [] => Except.ok []
  | stream :: rest =>
    match stream_json_name stream with
    | Except.error e => Except.error e
    | Except.ok name =>
      if (alookup name user_stream_config).isSome then
        match gen_configured_stream_json stream user_stream_config with
        | Except.error e => Except.error e
        | Except.ok merged =>
          match build_configured_streams rest user_stream_config with
          | Except.error e => Except.error e
          | Except.ok tail => Except.ok (merged :: tail)
      else build_configured_streams rest user_stream_config

/-- `reconcile_normalization` (reconciliation.py lines 349-413): resolve the
normalization operation id for a connection from the destination's capability
and the tri-state user intent. -/
def reconcile_normalization (res : ApiEnv) (existing_connection_id : Option String)
    (destination : InitedAirbyteDestination) (normalization_config : Option Bool)
    (workspace_id : String) : RecM (Option String) := do
  let existing_basic_norm_op_id ←
    match existing_connection_id with
    | some cid => do
      RecM.callApi ⟨ "/operations/list", [("connectionId", JsonV.s cid)]⟩
      let operations := res.operations_response cid
      pure ((operations.find? (fun op => is_basic_normalization_operation op)).map
        (fun op => op.operationId))
    | none => pure (none : Option String)
  if normalization_config != some false then do
    let supported ←
      match destination.destination_definition_id with
      | some ddid =>
        if ddid ≠ "" then res.does_dest_support_normalization ddid workspace_id
        else pure false
      | none => pure false
    if supported then
      match existing_basic_norm_op_id with
      | some opid => pure (some opid)
      | none => do
        RecM.callApi ⟨ "/operations/create",
          [("workspaceId", JsonV.s workspace_id),
           ("name", JsonV.s "Normalization"),
           ("operatorConfiguration", JsonV.obj
             [("operatorType", JsonV.s "normalization"),
              ("normalization", JsonV.obj [("option", JsonV.s "basic")])])]⟩
        pure (some (res.new_operation_id workspace_id))
    else if normalization_config == some true then
      RecM.throwErr ("Destination " ++ destination.destination.name ++ " does not support normalization.")
    else pure none
  else pure none

/-- Decode a fetched `/connections/list` response into the name-keyed map of
decoded connections (the dict comprehension at reconciliation.py lines
442-447 and 490-495). -/
def decode_connections (js : List ConnApiJson)
    (sources : List (String × InitedAirbyteSource))
    (dests : List (String × InitedAirbyteDestination)) :
    Except String (List (String × InitedAirbyteConnection)) :=
  match js with
  | [] => Except.ok []
  | j :: rest =>
    match InitedAirbyteConnection.from_api_json j sources dests with
    | Except.error e => Except.error e
    | Except.ok c =>
      match decode_connections rest sources dests with
      | Except.error e => Except.error e
      | Except.ok m => Except.ok (dinsert m j.name c)

/-- The loop body of `reconcile_connections_pre` (reconciliation.py lines
449-468) for one connection name. -/
def reconcile_connections_pre_step (config_connections : List (String × AirbyteConnection))
    (existing_connections : List (String × InitedAirbyteConnection))
    (dry_run should_delete : Bool) (conn_name : String) (diff : ManagedElementDiff) :
    RecM ManagedElementDiff :=
  let config_conn := alookup conn_name config_connections
  let existing_conn := alookup conn_name existing_connections
  -- "Ignore connections not mentioned in the user config unless the user specifies to delete"
  if !should_delete && config_conn.isNone then
    pure diff
  else do
    let diff := diff.join (diff_connections config_conn
      (match existing_conn with | some e => some e.connection | none => none))
    match existing_conn with
    | some e =>
      if (match config_conn with
          | none => true
          | some c => c.must_be_recreated e.connection) then do
        if !dry_run then
          RecM.callApi ⟨ "/connections/delete", [("connectionId", JsonV.s e.connection_id)]⟩
        pure diff
      else pure diff
    | none => pure diff

/-- The loop of `reconcile_connections_pre` over the union of configured and
existing connection names. -/
def reconcile_connections_pre_go (config_connections : List (String × AirbyteConnection))
    (existing_connections : List (String × InitedAirbyteConnection))
    (dry_run should_delete : Bool) :
    List String → ManagedElementDiff → RecM ManagedElementDiff
  | [], diff => pure diff
  | conn_name :: rest, diff => do
    let diff2 ← reconcile_connections_pre_step config_connections existing_connections
      dry_run should_delete conn_name diff
    reconcile_connections_pre_go config_connections existing_connections
      dry_run should_delete rest diff2

/-- `reconcile_connections_pre` (reconciliation.py lines 416-469): generate
the connections diff and delete connections that are being dropped, or whose
referenced source/destination is about to be deleted or recreated, before the
source/destination pass runs. -/
def reconcile_connections_pre (res : ApiEnv)
    (config_connections : List (String × AirbyteConnection))
    (existing_sources : List (String × InitedAirbyteSource))
    (existing_destinations : List (String × InitedAirbyteDestination))
    (workspace_id : String) (dry_run should_delete : Bool) : RecM ManagedElementDiff := do
  RecM.callApi ⟨ "/connections/list", [("workspaceId", JsonV.s workspace_id)]⟩
  let existing_connections ← RecM.liftE
    (decode_connections res.connections_response_a existing_sources existing_destinations)
  reconcile_connections_pre_go config_connections existing_connections dry_run should_delete
    (unionKeys config_connections existing_connections) ManagedElementDiff.empty

/-- The Python expression
`existing_connections.get("name", {}).get("connectionId")` at
reconciliation.py line 507: it looks up the literal key `"name"`.  When no
connection is literally named `"name"` the default `{}` is taken and the
result is `None`; when one is, the object returned has no `.get` method and
Python raises `AttributeError`. -/
def existing_connections_get_name_key
    (existing_connections : List (String × InitedAirbyteConnection)) : RecM (Option String) :=
  match alookup "name" existing_connections with
  | none => pure none
  | some _ => RecM.throwErr "AttributeError: InitializedAirbyteConnection has no attribute get"

/-- The loop body of `reconcile_connections_post` (reconciliation.py lines
497-559) for one configured connection. -/
def reconcile_connections_post_step (res : ApiEnv)
    (init_sources : List (String × InitedAirbyteSource))
    (init_dests : List (String × InitedAirbyteDestination)) (workspace_id : String)
    (dry_run : Bool) (existing_connections : List (String × InitedAirbyteConnection))
    (conn_name : String) (config_conn : AirbyteConnection) : RecM Unit := do
  let existing_conn := alookup conn_name existing_connections
  let normalization_operation_id ←
    if !dry_run then do
      let destination ← dict_index init_dests config_conn.destination.name
      -- "Enable or disable basic normalization based on config"
      let ex_id ← existing_connections_get_name_key existing_connections
      reconcile_normalization res ex_id destination config_conn.normalize_data workspace_id
    else pure (none : Option String)
  let configured_streams ←
    if !dry_run then do
      let source ← dict_index init_sources config_conn.source.name
      let base_streams ← res.get_source_schema source.source_id
      RecM.liftE (build_configured_streams base_streams config_conn.stream_config)
    else pure ([] : List JsonV)
  let connection_base_json : List (String × JsonV) :=
    [("name", JsonV.s conn_name),
     ("namespaceDefinition", JsonV.s "source"),
     ("namespaceFormat", JsonV.s "$\x7bSOURCE_NAMESPACE\x7d"),
     ("prefix", JsonV.s ""),
     ("operationIds", JsonV.arr (match normalization_operation_id with
       | some opid => [JsonV.s opid]
       | none => [])),
     ("syncCatalog", JsonV.obj [("streams", JsonV.arr configured_streams)]),
     ("scheduleType", JsonV.s "manual"),
     ("status", JsonV.s "active")]
  match existing_conn with
  | some e =>
    if !dry_run then do
      -- note: the sources map is indexed by the connection's name here
      let source ← dict_index init_sources conn_name
      let catalog_id ← res.get_source_catalog_id source.source_id
      RecM.callApi ⟨ "/connections/update",
        connection_base_json ++
          [("sourceCatalogId", JsonV.s catalog_id),
           ("connectionId", JsonV.s e.connection_id)]⟩
    else pure ()
  | none =>
    if !dry_run then do
      let source ← dict_index init_sources config_conn.source.name
      let destination ← dict_index init_dests config_conn.destination.name
      let catalog_id ← res.get_source_catalog_id source.source_id
      RecM.callApi ⟨ "/connections/create",
        connection_base_json ++
          [("sourceCatalogId", JsonV.s catalog_id),
           ("sourceId", JsonV.s source.source_id),
           ("destinationId", JsonV.s destination.destination_id)]⟩
    else pure ()

/-- The loop of `reconcile_connections_post` over the configured connections,
in dict order. -/
def reconcile_connections_post_go (res : ApiEnv)
    (init_sources : List (String × InitedAirbyteSource))
    (init_dests : List (String × InitedAirbyteDestination)) (workspace_id : String)
    (dry_run : Bool) (existing_connections : List (String × InitedAirbyteConnection)) :
    List (String × AirbyteConnection) → RecM Unit
  | [] => pure ()
  | (conn_name, config_conn) :: rest => do
    reconcile_connections_post_step res init_sources init_dests workspace_id dry_run
      existing_connections conn_name config_conn
    reconcile_connections_post_go res init_sources init_dests workspace_id dry_run
      existing_connections rest

/-- `reconcile_connections_post` (reconciliation.py lines 472-559): create new
and update existing connections from the config when `dry_run` is false. -/
def reconcile_connections_post (res : ApiEnv)
    (config_connections : List (String × AirbyteConnection))
    (init_sources : List (String × InitedAirbyteSource))
    (init_dests : List (String × InitedAirbyteDestination)) (workspace_id : String)
    (dry_run : Bool) : RecM Unit := do
  RecM.callApi ⟨ "/connections/list", [("workspaceId", JsonV.s workspace_id)]⟩
  let existing_connections ← RecM.liftE
    (decode_connections res.connections_response_b init_sources init_dests)
  reconcile_connections_post_go res init_sources init_dests workspace_id dry_run
    existing_connections config_connections

/-- The name-keyed dict of configured connections built by `reconcile_config`. -/
def config_connections_of (objects : List AirbyteConnection) : List (String × AirbyteConnection) :=
  dictOf (objects.map (fun conn => (conn.name, conn)))

/-- The name-keyed dict of configured sources built by `reconcile_config`. -/
def config_sources_of (objects : List AirbyteConnection) : List (String × AirbyteSource) :=
  dictOf (objects.map (fun conn => (conn.source.name, conn.source)))

/-- The name-keyed dict of configured destinations built by `reconcile_config`. -/
def config_dests_of (objects : List AirbyteConnection) : List (String × AirbyteDestination) :=
  dictOf (objects.map (fun conn => (conn.destination.name, conn.destination)))

/-- The name-keyed dict of observed sources decoded from `/sources/list`. -/
def existing_sources_of (res : ApiEnv) : List (String × InitedAirbyteSource) :=
  dictOf (res.sources_response.map (fun j => (j.name, InitedAirbyteSource.from_api_json j)))

/-- The name-keyed dict of observed destinations decoded from `/destinations/list`. -/
def existing_dests_of (res : ApiEnv) : List (String × InitedAirbyteDestination) :=
  dictOf (res.destinations_response.map (fun j => (j.name, InitedAirbyteDestination.from_api_json j)))

/-- `reconcile_config` (reconciliation.py lines 275-346): the main entry
point.  The `res.cache_requests()` scope only memoizes read-only lookups and
is not modelled (spec 4.6). -/
def reconcile_config (res : ApiEnv) (objects : List AirbyteConnection)
    (dry_run should_delete : Bool) : RecM ManagedElementDiff := do
  let config_connections := config_connections_of objects
  let config_sources := config_sources_of objects
  let config_dests := config_dests_of objects
  let workspace_id ← res.get_default_workspace
  RecM.callApi ⟨ "/sources/list", [("workspaceId", JsonV.s workspace_id)]⟩
  let existing_sources := existing_sources_of res
  RecM.callApi ⟨ "/destinations/list", [("workspaceId", JsonV.s workspace_id)]⟩
  let existing_dests := existing_dests_of res
  -- "First, remove any connections that need to be deleted, so that we can
  -- safely delete any sources/destinations that are no longer referenced
  -- or that need to be recreated."
  let connections_diff ← reconcile_connections_pre res config_connections existing_sources
    existing_dests workspace_id dry_run should_delete
  let srcs ← reconcile_sources res config_sources existing_sources workspace_id
    dry_run should_delete
  let dsts ← reconcile_destinations res config_dests existing_dests workspace_id
    dry_run should_delete
  -- "Now that we have updated the set of sources and destinations, we can
  -- recreate or update any connections which depend on them."
  reconcile_connections_post res config_connections srcs.1 dsts.1 workspace_id dry_run
  pure (((ManagedElementDiff.empty.join srcs.2).join dsts.2).join connections_diff)

@[simp] theorem RecM.trace_callApi (c : ApiCall) : (RecM.callApi c).trace = [c] := rfl

@[simp] theorem RecM.result_callApi (c : ApiCall) : (RecM.callApi c).result = Except.ok () := rfl

@[simp] theorem RecM.trace_throwErr {α : Type} (e : String) :
    (RecM.throwErr (α := α) e).trace = [] := rfl

@[simp] theorem RecM.result_throwErr {α : Type} (e : String) :
    (RecM.throwErr (α := α) e).result = Except.error e := rfl

@[simp] theorem RecM.trace_liftE {α : Type} (e : Except String α) : (RecM.liftE e).trace = [] := rfl

@[simp] theorem RecM.result_liftE {α : Type} (e : Except String α) : (RecM.liftE e).result = e := rfl

@[simp] theorem RecM.trace_pureR {α : Type} (a : α) : (RecM.pureR a).trace = [] := rfl

@[simp] theorem RecM.result_pureR {α : Type} (a : α) : (RecM.pureR a).result = Except.ok a := rfl

@[simp] theorem RecM.bind_eq {α β : Type} (x : RecM α) (f : α → RecM β) :
    x >>= f = RecM.bindR x f := rfl

/-- The calls issued by a sequential composition are those of the first
computation followed by (on success) those of the continuation. -/
theorem RecM.traceAll_bindR {α β : Type} {p : ApiCall → Bool} {x : RecM α} {f : α → RecM β}
    (hx : x.trace.all p = true) (hf : ∀ v, ((f v).trace.all p) = true) :
    ((RecM.bindR x f).trace.all p) = true := by
  unfold RecM.bindR
  cases hr : x.result with
  | error e => simpa using hx
  | ok v =>
    simp only [List.all_append, Bool.and_eq_true]
    exact ⟨hx, hf v⟩

theorem RecM.traceAll_check_not_none {α : Type} {p : ApiCall → Bool} (x : Option α) :
    ((check_not_none x).trace.all p) = true := by
  cases x <;> simp [check_not_none]

theorem RecM.traceAll_dict_index {α : Type} {p : ApiCall → Bool}
    (m : List (String × α)) (k : String) :
    ((dict_index m k).trace.all p) = true := by
  unfold dict_index
  cases alookup k m <;> simp

@[simp] theorem ApiEnv.result_get_default_workspace (res : ApiEnv) :
    res.get_default_workspace.result = Except.ok res.default_workspace := rfl

@[simp] theorem ApiEnv.trace_get_default_workspace (res : ApiEnv) :
    res.get_default_workspace.trace = [⟨ "workspace/get", []⟩] := rfl

@[simp] theorem ApiEnv.result_get_source_definition_by_name (res : ApiEnv) (n ws : String) :
    (res.get_source_definition_by_name n ws).result = Except.ok (res.source_defn_of n ws) := rfl

@[simp] theorem ApiEnv.trace_get_source_definition_by_name (res : ApiEnv) (n ws : String) :
    (res.get_source_definition_by_name n ws).trace =
      [⟨ "source_definitions/lookup", [("name", JsonV.s n), ("workspaceId", JsonV.s ws)]⟩] := rfl

@[simp] theorem ApiEnv.result_get_destination_definition_by_name (res : ApiEnv) (n ws : String) :
    (res.get_destination_definition_by_name n ws).result =
      Except.ok (res.destination_defn_of n ws) := rfl

@[simp] theorem ApiEnv.trace_get_destination_definition_by_name (res : ApiEnv) (n ws : String) :
    (res.get_destination_definition_by_name n ws).trace =
      [⟨ "destination_definitions/lookup", [("name", JsonV.s n), ("workspaceId", JsonV.s ws)]⟩] := rfl

@[simp] theorem ApiEnv.result_does_dest_support_normalization (res : ApiEnv) (d ws : String) :
    (res.does_dest_support_normalization d ws).result =
      Except.ok (res.supports_normalization d ws) := rfl

@[simp] theorem ApiEnv.trace_does_dest_support_normalization (res : ApiEnv) (d ws : String) :
    (res.does_dest_support_normalization d ws).trace =
      [⟨ "normalization/supports", [("destinationDefinitionId", JsonV.s d), ("workspaceId", JsonV.s ws)]⟩] := rfl

@[simp] theorem ApiEnv.result_get_source_schema (res : ApiEnv) (sid : String) :
    (res.get_source_schema sid).result = Except.ok (res.schema_response sid) := rfl

@[simp] theorem ApiEnv.trace_get_source_schema (res : ApiEnv) (sid : String) :
    (res.get_source_schema sid).trace = [⟨ "source/schema", [("sourceId", JsonV.s sid)]⟩] := rfl

@[simp] theorem ApiEnv.result_get_source_catalog_id (res : ApiEnv) (sid : String) :
    (res.get_source_catalog_id sid).result = Except.ok (res.catalog_id_of sid) := rfl

@[simp] theorem ApiEnv.trace_get_source_catalog_id (res : ApiEnv) (sid : String) :
    (res.get_source_catalog_id sid).trace = [⟨ "source/catalog_id", [("sourceId", JsonV.s sid)]⟩] := rfl

/-- The basic-normalization operation id already attached to the given
connection, if any (the pure content of reconciliation.py lines 362-383). -/
def existing_norm_op_id (res : ApiEnv) (existing_connection_id : Option String) : Option String :=
  match existing_connection_id with
  | some cid =>
    ((res.operations_response cid).find? (fun op => is_basic_normalization_operation op)).map
      (fun op => op.operationId)
  | none => none

/-- The truthiness of `destination.destination_definition_id and
res.does_dest_support_normalization(...)` (reconciliation.py lines 386-388):
the destination supports normalization iff its definition id is present,
non-empty and the capability lookup answers true. -/
def dest_supports_normalization_flag (res : ApiEnv) (destination : InitedAirbyteDestination)
    (workspace_id : String) : Bool :=
  match destination.destination_definition_id with
  | some ddid => if ddid ≠ "" then res.supports_normalization ddid workspace_id else false
  | none => false

/-- Closed form of the result of `reconcile_normalization`. -/
theorem reconcile_normalization_result (res : ApiEnv) (ex_id : Option String)
    (dest : InitedAirbyteDestination) (cfg : Option Bool) (ws : String) :
    (reconcile_normalization res ex_id dest cfg ws).result =
      if cfg = some false then Except.ok none
      else if dest_supports_normalization_flag res dest ws then
        Except.ok (some (match existing_norm_op_id res ex_id with
          | some opid => opid
          | none => res.new_operation_id ws))
      else if cfg = some true then
        Except.error ("Destination " ++ dest.destination.name ++ " does not support normalization.")
      else Except.ok none := by
  unfold reconcile_normalization
  cases ex_id with
  | none =>
    cases hd : dest.destination_definition_id with
    | none =>
      simp [RecM.bind_eq, RecM.bindR, RecM.pureR, dest_supports_normalization_flag,
        existing_norm_op_id, hd, RecM.throwErr]
      rcases cfg with _ | b
      · simp
      · cases b <;> simp
    | some ddid =>
      by_cases he : ddid = ""
      · subst he
        simp [RecM.bind_eq, RecM.bindR, RecM.pureR, dest_supports_normalization_flag,
          existing_norm_op_id, hd, RecM.throwErr]
        rcases cfg with _ | b
        · simp
        · cases b <;> simp
      · simp [RecM.bind_eq, RecM.bindR, RecM.pureR, dest_supports_normalization_flag,
          existing_norm_op_id, hd, he, ApiEnv.does_dest_support_normalization, RecM.callApi,
          RecM.throwErr]
        rcases cfg with _ | b
        · cases hs : res.supports_normalization ddid ws <;> simp
        · cases b <;> cases hs : res.supports_normalization ddid ws <;> simp
  | some cid =>
    cases hd : dest.destination_definition_id with
    | none =>
      simp [RecM.bind_eq, RecM.bindR, RecM.pureR, dest_supports_normalization_flag,
        existing_norm_op_id, hd, RecM.throwErr, RecM.callApi]
      rcases cfg with _ | b
      · simp
      · cases b <;> simp
    | some ddid =>
      by_cases he : ddid = ""
      · subst he
        simp [RecM.bind_eq, RecM.bindR, RecM.pureR, dest_supports_normalization_flag,
          existing_norm_op_id, hd, RecM.throwErr, RecM.callApi]
        rcases cfg with _ | b
        · simp
        · cases b <;> simp
      · simp [RecM.bind_eq, RecM.bindR, RecM.pureR, dest_supports_normalization_flag,
          existing_norm_op_id, hd, he, ApiEnv.does_dest_support_normalization, RecM.callApi,
          RecM.throwErr]
        rcases cfg with _ | b
        · cases hs : res.supports_normalization ddid ws <;>
            cases hf : (res.operations_response cid).find? (fun op => is_basic_normalization_operation op) <;>
            simp
        · cases b <;> cases hs : res.supports_normalization ddid ws <;>
            cases hf : (res.operations_response cid).find? (fun op => is_basic_normalization_operation op) <;>
            simp

/-- A minimal concrete remote oracle used to instantiate universally
quantified theorems at concrete inputs. -/
def env0 : ApiEnv :=
  { default_workspace := "ws"
    sources_response := []
    destinations_response := []
    connections_response_a := []
    connections_response_b := []
    source_defn_of := fun _ _ => none
    destination_defn_of := fun _ _ => none
    supports_normalization := fun _ _ => false
    operations_response := fun _ => []
    schema_response := fun _ => []
    catalog_id_of := fun _ => "cat"
    new_source_id := fun n => "src-" ++ n
    new_destination_id := fun n => "dst-" ++ n
    new_operation_id := fun _ => "op-new" }

/-- A concrete destination record used by witnesses. -/
def dest0 : InitedAirbyteDestination :=
  { destination := { name := "d1", destination_type := "t", destination_configuration := [] }
    destination_id := "did"
    destination_definition_id := some "dd" }

/-- C6: `reconcile_normalization` satisfies the tri-state table: explicit
`false` intent returns none for every destination; unset intent with an
unsupported destination returns none; explicit `true` intent with an
unsupported destination raises a configuration error; and no other case
raises (given well-formed oracle responses). -/
theorem reconcile_normalization_tri_state (res : ApiEnv) (ex_id : Option String)
    (dest : InitedAirbyteDestination) (cfg : Option Bool) (ws : String) :
    (cfg = some false →
      (reconcile_normalization res ex_id dest cfg ws).result = Except.ok none) ∧
    (cfg = none → dest_supports_normalization_flag res dest ws = false →
      (reconcile_normalization res ex_id dest cfg ws).result = Except.ok none) ∧
    (cfg = some true → dest_supports_normalization_flag res dest ws = false →
      (reconcile_normalization res ex_id dest cfg ws).result =
        Except.error ("Destination " ++ dest.destination.name ++ " does not support normalization.")) ∧
    (¬(cfg = some true ∧ dest_supports_normalization_flag res dest ws = false) →
      ∃ v, (reconcile_normalization res ex_id dest cfg ws).result = Except.ok v) := by
  rw [reconcile_normalization_result res ex_id dest cfg ws]
  refine ⟨?_, ?_, ?_, ?_⟩
  · intro h
    simp [h]
  · intro h hsup
    simp [h, hsup]
  · intro h hsup
    simp [h, hsup]
  · intro h
    by_cases hc : cfg = some false
    · simp [hc]
    · by_cases hsup : dest_supports_normalization_flag res dest ws
      · simp [hc, hsup]
      · by_cases ht : cfg = some true
        · exact absurd ⟨ht, by simpa using hsup⟩ h
        · simp [hc, hsup, ht]

/-- Witness for C6: the tri-state table evaluated at concrete inputs — intent
`false` yields none; unset intent on an unsupported destination yields none;
intent `true` on an unsupported destination raises; intent `true` on a
supported destination does not raise. -/
theorem reconcile_normalization_tri_state_witness :
    (reconcile_normalization env0 none dest0 (some false) "ws").result = Except.ok none ∧
    (reconcile_normalization env0 none dest0 none "ws").result = Except.ok none ∧
    (reconcile_normalization env0 none dest0 (some true) "ws").result =
      Except.error "Destination d1 does not support normalization." ∧
    (∃ v, (reconcile_normalization
      { env0 with supports_normalization := fun _ _ => true }
      none dest0 (some true) "ws").result = Except.ok v) := by
  refine ⟨?_, ?_, ?_, ?_⟩
  · exact (reconcile_normalization_tri_state env0 none dest0 (some false) "ws").1 rfl
  · exact (reconcile_normalization_tri_state env0 none dest0 none "ws").2.1 rfl (by decide)
  · exact (reconcile_normalization_tri_state env0 none dest0 (some true) "ws").2.2.1 rfl (by decide)
  · exact (reconcile_normalization_tri_state
      { env0 with supports_normalization := fun _ _ => true }
      none dest0 (some true) "ws").2.2.2 (by simp [dest_supports_normalization_flag, dest0])

theorem alookup_append {α : Type} (k : String) (a b : List (String × α)) :
    alookup k (a ++ b) = match alookup k a with
      | some v => some v
      | none => alookup k b := by
  induction a with
  | nil => simp [alookup]
  | cons hd tl ih =>
    obtain ⟨k2, v2⟩ := hd
    by_cases hk : k2 = k <;> simp [alookup, hk, ih]

theorem alookup_eq_none_of_not_any {α : Type} {k : String} {m : List (String × α)}
    (h : m.any (fun p => p.1 = k) = false) : alookup k m = none := by
  induction m with
  | nil => simp [alookup]
  | cons hd tl ih =>
    obtain ⟨k2, v2⟩ := hd
    simp only [List.any_cons, Bool.or_eq_false_iff] at h
    have hk : k2 ≠ k := by
      intro he
      simp [he] at h
    simp [alookup, hk, ih h.2]

theorem alookup_dinsert_same {α : Type} (m : List (String × α)) (k : String) (v : α) :
    alookup k (dinsert m k v) = some v := by
  induction m with
  | nil => simp [dinsert, alookup]
  | cons hd tl ih =>
    obtain ⟨k2, v2⟩ := hd
    by_cases hk : k2 = k
    · subst hk
      simp [dinsert, alookup]
    · simp [dinsert, alookup, hk, ih]

theorem alookup_dinsert_other {α : Type} (m : List (String × α)) (j k : String) (v : α)
    (hjk : j ≠ k) : alookup j (dinsert m k v) = alookup j m := by
  induction m with
  | nil => simp [dinsert, alookup, Ne.symm hjk]
  | cons hd tl ih =>
    obtain ⟨k2, v2⟩ := hd
    by_cases hk : k2 = k
    · subst hk
      simp [dinsert, alookup, Ne.symm hjk, fun h : k2 = j => hjk h.symm]
    · by_cases hj : k2 = j
      · subst hj
        simp [dinsert, alookup, hk, Ne.symm hjk]
      · simp [dinsert, alookup, hk, hj, ih]

/-- The `stream` sub-object of a stream record. -/
def stream_field (s : JsonV) : Option JsonV :=
  match s with
  | JsonV.obj f => alookup "stream" f
  | _ => none

/-- A field of the `config` sub-object of a stream record. -/
def config_field (m : JsonV) (k : String) : Option JsonV :=
  match m with
  | JsonV.obj f =>
    match alookup "config" f with
    | some (JsonV.obj cf) => alookup k cf
    | _ => none
  | _ => none

/-- Whether a discovered stream's name is a key of the user's stream config
(the filter condition of the comprehension at reconciliation.py line 522). -/
def stream_has_config (s : JsonV) (cfg : List (String × AirbyteSyncMode)) : Bool :=
  match stream_json_name s with
  | Except.ok n => (alookup n cfg).isSome
  | Except.error _ => false

theorem deep_merge_fields_single (onto : List (String × JsonV)) (k : String) (v : JsonV) :
    deep_merge_fields onto [(k, v)] = deep_merge_one onto k v := by
  simp [deep_merge_fields]

theorem deep_merge_fields_cons_s (onto : List (String × JsonV)) (k x : String)
    (rest : List (String × JsonV)) :
    deep_merge_fields onto ((k, JsonV.s x) :: rest) =
      deep_merge_fields (dinsert onto k (JsonV.s x)) rest := by
  simp [deep_merge_fields, deep_merge_one]

@[simp] theorem deep_merge_fields_nil (onto : List (String × JsonV)) :
    deep_merge_fields onto [] = onto := by
  simp [deep_merge_fields]

theorem deep_merge_one_obj_rec (onto : List (String × JsonV)) (k : String)
    (oa ob : List (String × JsonV)) (h : alookup k onto = some (JsonV.obj oa)) :
    deep_merge_one onto k (JsonV.obj ob) =
      dinsert onto k (JsonV.obj (deep_merge_fields oa ob)) := by
  simp [deep_merge_one, h]

theorem deep_merge_one_obj_other (onto : List (String × JsonV)) (k : String)
    (ob : List (String × JsonV)) (h : ∀ oa, alookup k onto ≠ some (JsonV.obj oa)) :
    deep_merge_one onto k (JsonV.obj ob) = dinsert onto k (JsonV.obj ob) := by
  unfold deep_merge_one
  cases hl : alookup k onto with
  | none => simp
  | some w => cases w <;> simp_all

/-- The two config fields of a directly-overridden stream record. -/
theorem config_pair_props (fields : List (String × JsonV)) (v1 v2 : String) :
    alookup "stream" (dinsert fields "config"
        (JsonV.obj [("syncMode", JsonV.s v1), ("destinationSyncMode", JsonV.s v2)])) =
      alookup "stream" fields ∧
    ∃ cf, alookup "config" (dinsert fields "config"
        (JsonV.obj [("syncMode", JsonV.s v1), ("destinationSyncMode", JsonV.s v2)])) =
        some (JsonV.obj cf) ∧
      alookup "syncMode" cf = some (JsonV.s v1) ∧
      alookup "destinationSyncMode" cf = some (JsonV.s v2) := by
  refine ⟨alookup_dinsert_other _ _ _ _ (by decide),
    [("syncMode", JsonV.s v1), ("destinationSyncMode", JsonV.s v2)],
    alookup_dinsert_same _ _ _, by simp [alookup], by simp [alookup]⟩

/-- The merged stream record keeps the discovered `stream` descriptor and
carries the configured sync-mode pair in its `config` sub-object. -/
theorem merged_stream_props (fields : List (String × JsonV)) (v1 v2 : String) :
    alookup "stream" (deep_merge_fields fields
        [("config", JsonV.obj [("syncMode", JsonV.s v1), ("destinationSyncMode", JsonV.s v2)])]) =
      alookup "stream" fields ∧
    ∃ cf, alookup "config" (deep_merge_fields fields
        [("config", JsonV.obj [("syncMode", JsonV.s v1), ("destinationSyncMode", JsonV.s v2)])]) =
        some (JsonV.obj cf) ∧
      alookup "syncMode" cf = some (JsonV.s v1) ∧
      alookup "destinationSyncMode" cf = some (JsonV.s v2) := by
  rw [deep_merge_fields_single]
  cases h : alookup "config" fields with
  | none =>
    rw [deep_merge_one_obj_other _ _ _ (by simp [h])]
    exact config_pair_props fields v1 v2
  | some w =>
    cases w with
    | obj oc =>
      rw [deep_merge_one_obj_rec _ _ _ _ h]
      rw [deep_merge_fields_cons_s, deep_merge_fields_cons_s, deep_merge_fields_nil]
      refine ⟨alookup_dinsert_other _ _ _ _ (by decide),
        dinsert (dinsert oc "syncMode" (JsonV.s v1)) "destinationSyncMode" (JsonV.s v2),
        alookup_dinsert_same _ _ _, ?_, alookup_dinsert_same _ _ _⟩
      rw [alookup_dinsert_other _ _ _ _ (by decide)]
      exact alookup_dinsert_same _ _ _
    | s v =>
      rw [deep_merge_one_obj_other _ _ _ (by simp [h])]
      exact config_pair_props fields v1 v2
    | b v =>
      rw [deep_merge_one_obj_other _ _ _ (by simp [h])]
      exact config_pair_props fields v1 v2
    | i v =>
      rw [deep_merge_one_obj_other _ _ _ (by simp [h])]
      exact config_pair_props fields v1 v2
    | null =>
      rw [deep_merge_one_obj_other _ _ _ (by simp [h])]
      exact config_pair_props fields v1 v2
    | arr v =>
      rw [deep_merge_one_obj_other _ _ _ (by simp [h])]
      exact config_pair_props fields v1 v2

theorem stream_json_name_inv {s : JsonV} {n : String} (h : stream_json_name s = Except.ok n) :
    ∃ fields sf, s = JsonV.obj fields ∧ alookup "stream" fields = some (JsonV.obj sf) ∧
      alookup "name" sf = some (JsonV.s n) := by
  cases s with
  | obj fields =>
    refine ⟨fields, ?_⟩
    cases h1 : alookup "stream" fields with
    | none => simp [stream_json_name, h1] at h
    | some w =>
      cases w with
      | obj sf =>
        refine ⟨sf, rfl, rfl, ?_⟩
        cases h2 : alookup "name" sf with
        | none => simp [stream_json_name, h1, h2] at h
        | some w2 =>
          cases w2 <;> simp [stream_json_name, h1, h2] at h
          simp_all [stream_json_name]
      | s v => simp [stream_json_name, h1] at h
      | b v => simp [stream_json_name, h1] at h
      | i v => simp [stream_json_name, h1] at h
      | null => simp [stream_json_name, h1] at h
      | arr v => simp [stream_json_name, h1] at h
  | s v => simp [stream_json_name] at h
  | b v => simp [stream_json_name] at h
  | i v => simp [stream_json_name] at h
  | null => simp [stream_json_name] at h
  | arr v => simp [stream_json_name] at h

theorem gen_configured_stream_json_ok {fields sf : List (String × JsonV)} {n : String}
    {mode : AirbyteSyncMode} {cfg : List (String × AirbyteSyncMode)}
    (h1 : alookup "stream" fields = some (JsonV.obj sf))
    (h2 : alookup "name" sf = some (JsonV.s n))
    (h3 : alookup n cfg = some mode) :
    gen_configured_stream_json (JsonV.obj fields) cfg =
      Except.ok (JsonV.obj (deep_merge_fields fields
        [("config", JsonV.obj
          [("syncMode", JsonV.s mode.value.1),
           ("destinationSyncMode", JsonV.s mode.value.2)])])) := by
  simp [gen_configured_stream_json, h1, h2, h3]

/-- C7: the configured-streams list built by the post-phase contains exactly
the discovered streams whose names are keys of the stream config, in the
discovered catalog's order; each keeps its discovered `stream` descriptor and
is merged with the configured pair `(syncMode, destinationSyncMode)`;
streams not mentioned in the stream config are excluded. -/
theorem stream_catalog_merge_exact (bs : List JsonV) (cfg : List (String × AirbyteSyncMode))
    (h : ∀ s0 ∈ bs, ∃ n, stream_json_name s0 = Except.ok n) :
    ∃ l, build_configured_streams bs cfg = Except.ok l ∧
      l.map stream_field = (bs.filter (fun s0 => stream_has_config s0 cfg)).map stream_field ∧
      ∀ m ∈ l, ∃ n mode, stream_json_name m = Except.ok n ∧ alookup n cfg = some mode ∧
        config_field m "syncMode" = some (JsonV.s mode.value.1) ∧
        config_field m "destinationSyncMode" = some (JsonV.s mode.value.2) := by
  induction bs with
  | nil => exact ⟨[], rfl, rfl, by simp⟩
  | cons s0 rest ih =>
    obtain ⟨n, hn⟩ := h s0 (List.mem_cons_self s0 rest)
    obtain ⟨fields, sf, hs0, hstr, hname⟩ := stream_json_name_inv hn
    subst hs0
    obtain ⟨l, hl, hmap, hprops⟩ := ih (fun x hx => h x (List.mem_cons_of_mem _ hx))
    by_cases hc : (alookup n cfg).isSome
    · obtain ⟨mode, hmode⟩ := Option.isSome_iff_exists.mp hc
      have hgen := gen_configured_stream_json_ok hstr hname hmode
      have hsc : stream_has_config (JsonV.obj fields) cfg = true := by
        simp [stream_has_config, hn, hc]
      obtain ⟨hkeep, cf, hcf, hsm, hdsm⟩ :=
        merged_stream_props fields mode.value.1 mode.value.2
      refine ⟨JsonV.obj (deep_merge_fields fields
        [("config", JsonV.obj
          [("syncMode", JsonV.s mode.value.1),
           ("destinationSyncMode", JsonV.s mode.value.2)])]) :: l, ?_, ?_, ?_⟩
      · simp [build_configured_streams, hn, hc, hgen, hl]
      · simp only [List.filter_cons, hsc, if_pos, List.map_cons, hmap]
        simp [stream_field, hkeep]
      · intro m hm
        rcases List.mem_cons.mp hm with hm | hm
        · subst hm
          refine ⟨n, mode, ?_, hmode, ?_, ?_⟩
          · simp [stream_json_name, hkeep, hstr, hname]
          · simp [config_field, hcf, hsm]
          · simp [config_field, hcf, hdsm]
        · exact hprops m hm
    · have hsc : stream_has_config (JsonV.obj fields) cfg = false := by
        simp [stream_has_config, hn]
        simpa using hc
      refine ⟨l, ?_, ?_, hprops⟩
      · simp only [build_configured_streams, hn]
        simp only [Option.isSome] at hc ⊢
        rcases hcc : alookup n cfg with _ | mode
        · simpa [hcc] using hl
        · rw [hcc] at hc
          simp at hc
      · simp only [List.filter_cons, hsc]
        simpa using hmap

/-- A concrete sync mode used by witnesses. -/
def mode0 : AirbyteSyncMode := { name := "full_refresh_overwrite", value := ("full_refresh", "overwrite") }

/-- A concrete discovered stream record named `users`. -/
def stream_users : JsonV := JsonV.obj [("stream", JsonV.obj [("name", JsonV.s "users")])]

/-- A concrete discovered stream record named `orders`. -/
def stream_orders : JsonV := JsonV.obj [("stream", JsonV.obj [("name", JsonV.s "orders")])]

/-- Witness for C7: a catalog with two discovered streams, one configured;
the merge keeps exactly the configured one with its sync-mode pair. -/
theorem stream_catalog_merge_exact_witness :
    ∃ l, build_configured_streams [stream_users, stream_orders] [("users", mode0)] = Except.ok l ∧
      l.map stream_field =
        (([stream_users, stream_orders]).filter
          (fun s0 => stream_has_config s0 [("users", mode0)])).map stream_field ∧
      ∀ m ∈ l, ∃ n mode, stream_json_name m = Except.ok n ∧
        alookup n [("users", mode0)] = some mode ∧
        config_field m "syncMode" = some (JsonV.s mode.value.1) ∧
        config_field m "destinationSyncMode" = some (JsonV.s mode.value.2) :=
  stream_catalog_merge_exact [stream_users, stream_orders] [("users", mode0)] (by
    intro s0 hs0
    rcases List.mem_cons.mp hs0 with h | h
    · exact ⟨ "users", by rw [h]; rfl⟩
    · rcases List.mem_cons.mp h with h2 | h2
      · exact ⟨ "orders", by rw [h2]; rfl⟩
      · simp at h2)

/-- A configured source used in concrete runs, with immutable type `t2`. -/
def cfgS : AirbyteSource :=
  { name := "s", source_type := "t2", source_configuration := [] }

/-- An observed source of the same name, with immutable type `t1`. -/
def exS : InitedAirbyteSource :=
  { source := { name := "s", source_type := "t1", source_configuration := [] }
    source_id := "sid", source_definition_id := some "sd" }

/-- A configured destination used in concrete runs, with immutable type `t2`. -/
def cfgD : AirbyteDestination :=
  { name := "d", destination_type := "t2", destination_configuration := [] }

/-- An observed destination of the same name, with immutable type `t1`. -/
def exD : InitedAirbyteDestination :=
  { destination := { name := "d", destination_type := "t1", destination_configuration := [] }
    destination_id := "did", destination_definition_id := some "dd" }

/-- The oracle for the recreate scenarios: the source definition lookup for
type `t2` succeeds. -/
def envRecreate : ApiEnv :=
  { env0 with source_defn_of := fun n _ => if n = "t2" then some "sd2" else none }

/-- The freshly created source recorded after a recreate. -/
def recreatedS : InitedAirbyteSource :=
  { source := cfgS, source_id := "src-s", source_definition_id := some "sd2" }

/-- The destination record created despite the failed definition lookup. -/
def createdD_noDefn : InitedAirbyteDestination :=
  { destination := cfgD, destination_id := "dst-d", destination_definition_id := none }

/-- C4: when a configured destination's immutable type differs from the
observed one, `reconcile_destinations` with `dry_run = False` issues only the
delete call — the `elif` skips the create branch — and records the
pre-existing observed destination, not an `InitializedAirbyteDestination`
built from the configured entity.  The symmetric source pass deletes, looks
up the definition id and re-creates. -/
theorem reconcile_destinations_recreate_skips_create :
    ((reconcile_destinations envRecreate [("d", cfgD)] [("d", exD)] "ws" false false).trace.map
      (fun c => c.endpoint) = ["/destinations/delete"]) ∧
    (∃ d, (reconcile_destinations envRecreate [("d", cfgD)] [("d", exD)] "ws" false false).result =
      Except.ok ([("d", exD)], d)) ∧
    ((reconcile_sources envRecreate [("s", cfgS)] [("s", exS)] "ws" false false).trace.map
      (fun c => c.endpoint) =
      ["/sources/delete", "source_definitions/lookup", "/sources/create"]) ∧
    (∃ d, (reconcile_sources envRecreate [("s", cfgS)] [("s", exS)] "ws" false false).result =
      Except.ok ([("s", recreatedS)], d)) := by
  refine ⟨rfl, ⟨_, rfl⟩, rfl, ⟨_, rfl⟩⟩

/-- C8: a missing definition-id lookup is fatal for sources
(`check.not_none` raises before any create call) but not for destinations:
the destination pass proceeds, records a `None` definition id and issues the
create request with a null `destinationDefinitionId`. -/
theorem definition_lookup_missing_asymmetric :
    ((reconcile_sources env0 [("s", cfgS)] [] "ws" false false).result =
      Except.error "check.not_none failed") ∧
    ((reconcile_sources env0 [("s", cfgS)] [] "ws" false false).trace.map
      (fun c => c.endpoint) = ["source_definitions/lookup"]) ∧
    (∃ d, (reconcile_destinations env0 [("d", cfgD)] [] "ws" false false).result =
      Except.ok ([("d", createdD_noDefn)], d)) ∧
    ((reconcile_destinations env0 [("d", cfgD)] [] "ws" false false).trace =
      [⟨ "destination_definitions/lookup", [("name", JsonV.s "t2"), ("workspaceId", JsonV.s "ws")]⟩,
       ⟨ "/destinations/create",
         [("destinationDefinitionId", JsonV.null),
          ("workspaceId", JsonV.s "ws"),
          ("name", JsonV.s "d"),
          ("connectionConfiguration", JsonV.obj [])]⟩]) := by
  refine ⟨rfl, rfl, ⟨_, rfl⟩, rfl⟩

/-- Counterexample to C9: an observed-only source (and destination) deleted
under `should_delete = True` still has an entry in the returned result map. -/
theorem deleted_entity_still_in_result_map :
    (∃ d, (reconcile_sources env0 [] [("s", exS)] "ws" false true).result =
      Except.ok ([("s", exS)], d)) ∧
    ((reconcile_sources env0 [] [("s", exS)] "ws" false true).trace.map
      (fun c => c.endpoint) = ["/sources/delete"]) ∧
    (∃ d, (reconcile_destinations env0 [] [("d", exD)] "ws" false true).result =
      Except.ok ([("d", exD)], d)) ∧
    ((reconcile_destinations env0 [] [("d", exD)] "ws" false true).trace.map
      (fun c => c.endpoint) = ["/destinations/delete"]) := by
  refine ⟨⟨_, rfl⟩, rfl, ⟨_, rfl⟩, rfl⟩

/-- C9 (amended): an entity that is observed only and is deleted during the
pass is NOT omitted: the loop records the observed instance in the result map
before issuing the delete, so the returned map still carries the stale entry,
for sources and destinations alike. -/
theorem deleted_entity_recorded_in_result_map (res : ApiEnv) (ws : String) (n : String)
    (e : InitedAirbyteSource) (e2 : InitedAirbyteDestination) :
    (∃ d, (reconcile_sources res [] [(n, e)] ws false true).result = Except.ok ([(n, e)], d)) ∧
    ((reconcile_sources res [] [(n, e)] ws false true).trace =
      [⟨ "/sources/delete", [("sourceId", JsonV.s e.source_id)]⟩]) ∧
    (∃ d, (reconcile_destinations res [] [(n, e2)] ws false true).result =
      Except.ok ([(n, e2)], d)) ∧
    ((reconcile_destinations res [] [(n, e2)] ws false true).trace =
      [⟨ "/destinations/delete", [("destinationId", JsonV.s e2.destination_id)]⟩]) := by
  have hk : unionKeys ([] : List (String × AirbyteSource)) [(n, e)] = [n] := by
    simp [unionKeys, dedupFirst]
  have hk2 : unionKeys ([] : List (String × AirbyteDestination)) [(n, e2)] = [n] := by
    simp [unionKeys, dedupFirst]
  have hs : alookup n [(n, e)] = some e := by simp [alookup]
  have hs2 : alookup n [(n, e2)] = some e2 := by simp [alookup]
  refine ⟨?_, ?_, ?_, ?_⟩
  · refine ⟨ManagedElementDiff.empty.join (diff_sources none (some e.source)), ?_⟩
    unfold reconcile_sources
    rw [hk]
    simp [reconcile_sources_go, reconcile_sources_step, hs, alookup,
      RecM.bind_eq, RecM.bindR, RecM.callApi, RecM.pureR, dinsert]
  · unfold reconcile_sources
    rw [hk]
    simp [reconcile_sources_go, reconcile_sources_step, hs, alookup,
      RecM.bind_eq, RecM.bindR, RecM.callApi, RecM.pureR, dinsert]
  · refine ⟨ManagedElementDiff.empty.join (diff_destinations none (some e2.destination)), ?_⟩
    unfold reconcile_destinations
    rw [hk2]
    simp [reconcile_destinations_go, reconcile_destinations_step, hs2, alookup,
      RecM.bind_eq, RecM.bindR, RecM.callApi, RecM.pureR, dinsert]
  · unfold reconcile_destinations
    rw [hk2]
    simp [reconcile_destinations_go, reconcile_destinations_step, hs2, alookup,
      RecM.bind_eq, RecM.bindR, RecM.callApi, RecM.pureR, dinsert]

/-- The source referenced by the C5 scenario connection; the connection is
deliberately named like the source so that the update path's
`init_sources[conn_name]` lookup succeeds. -/
def srcN : AirbyteSource := { name := "c", source_type := "t", source_configuration := [] }

/-- The initialized form of `srcN`. -/
def initSrcN : InitedAirbyteSource :=
  { source := srcN, source_id := "sid", source_definition_id := some "sd" }

/-- The destination referenced by the C5 scenario connection. -/
def dstN : AirbyteDestination := { name := "d", destination_type := "u", destination_configuration := [] }

/-- The initialized form of `dstN`; its definition supports normalization. -/
def initDstN : InitedAirbyteDestination :=
  { destination := dstN, destination_id := "did", destination_definition_id := some "dd" }

/-- The configured connection of the C5 scenario: normalization intent unset,
no streams. -/
def connN : AirbyteConnection :=
  { name := "c", source := srcN, destination := dstN, normalize_data := none, stream_config := [] }

/-- The observed connection record with the same name, already carrying the
basic-normalization operation `op1` in the oracle's operations list. -/
def connJsonN : ConnApiJson :=
  { name := "c", connectionId := "cid", sourceId := "sid", destinationId := "did"
    normalize_data := none, stream_config := [] }

/-- An operation matching the basic-normalization signature. -/
def opBasic : OperationJson :=
  { operationId := "op1", operatorType := "normalization", normalizationOption := "basic" }

/-- The oracle for the C5 scenario: the observed connection exists, its
operations list contains `opBasic`, and the destination supports
normalization. -/
def envN : ApiEnv :=
  { env0 with
    connections_response_b := [connJsonN]
    supports_normalization := fun _ _ => true
    operations_response := fun _ => [opBasic] }

/-- C5 fails on the code: the post-phase looks up the literal key `"name"`
instead of the connection's name (line 507), passes `None` to
`reconcile_normalization`, never lists the existing connection's operations,
and issues an `/operations/create` call even though the observed connection
already carries a basic-normalization operation. -/
theorem post_phase_misses_existing_normalization :
    (reconcile_connections_post envN [("c", connN)] [("c", initSrcN)] [("d", initDstN)]
        "ws" false).trace.map (fun c => c.endpoint) =
      ["/connections/list", "normalization/supports", "/operations/create",
       "source/schema", "source/catalog_id", "/connections/update"] := by
  rfl

theorem RecM.result_bind {α β : Type} (x : RecM α) (f : α → RecM β) :
    (x >>= f).result = match x.result with
      | Except.error e => Except.error e
      | Except.ok v => (f v).result := by
  cases hr : x.result <;> simp [RecM.bind_eq, RecM.bindR, hr]

theorem RecM.trace_bind {α β : Type} (x : RecM α) (f : α → RecM β) :
    (x >>= f).trace = match x.result with
      | Except.error _ => x.trace
      | Except.ok v => x.trace ++ (f v).trace := by
  cases hr : x.result <;> simp [RecM.bind_eq, RecM.bindR, hr]

/-- `reconcile_normalization` only ever talks to the operations-list,
normalization-capability and operations-create endpoints. -/
theorem reconcile_normalization_trace_endpoints (res : ApiEnv) (ex_id : Option String)
    (dest : InitedAirbyteDestination) (cfg : Option Bool) (ws : String) :
    (reconcile_normalization res ex_id dest cfg ws).trace.all
      (fun c => (["/operations/list", "normalization/supports", "/operations/create"] : List String).contains
        c.endpoint) = true := by
  unfold reconcile_normalization
  cases ex_id with
  | none =>
    cases hd : dest.destination_definition_id with
    | none =>
      rcases cfg with _ | b
      · simp [RecM.bind_eq, RecM.bindR, RecM.pureR, hd, RecM.throwErr, RecM.callApi]
      · cases b <;> simp [RecM.bind_eq, RecM.bindR, RecM.pureR, hd, RecM.throwErr, RecM.callApi]
    | some ddid =>
      by_cases he : ddid = ""
      · subst he
        rcases cfg with _ | b
        · simp [RecM.bind_eq, RecM.bindR, RecM.pureR, hd, RecM.throwErr, RecM.callApi]
        · cases b <;> simp [RecM.bind_eq, RecM.bindR, RecM.pureR, hd, RecM.throwErr, RecM.callApi]
      · rcases cfg with _ | b
        · cases hs : res.supports_normalization ddid ws <;>
            simp [RecM.bind_eq, RecM.bindR, RecM.pureR, hd, he, RecM.throwErr, RecM.callApi,
              ApiEnv.does_dest_support_normalization, hs]
        · cases b <;> cases hs : res.supports_normalization ddid ws <;>
            simp [RecM.bind_eq, RecM.bindR, RecM.pureR, hd, he, RecM.throwErr, RecM.callApi,
              ApiEnv.does_dest_support_normalization, hs]
  | some cid =>
    cases hd : dest.destination_definition_id with
    | none =>
      rcases cfg with _ | b
      · simp [RecM.bind_eq, RecM.bindR, RecM.pureR, hd, RecM.throwErr, RecM.callApi]
      · cases b <;> simp [RecM.bind_eq, RecM.bindR, RecM.pureR, hd, RecM.throwErr, RecM.callApi]
    | some ddid =>
      by_cases he : ddid = ""
      · subst he
        rcases cfg with _ | b
        · simp [RecM.bind_eq, RecM.bindR, RecM.pureR, hd, RecM.throwErr, RecM.callApi]
        · cases b <;> simp [RecM.bind_eq, RecM.bindR, RecM.pureR, hd, RecM.throwErr, RecM.callApi]
      · rcases cfg with _ | b
        · cases hs : res.supports_normalization ddid ws <;>
            cases hf : (res.operations_response cid).find? (fun op => is_basic_normalization_operation op) <;>
            simp [RecM.bind_eq, RecM.bindR, RecM.pureR, hd, he, RecM.throwErr, RecM.callApi,
              ApiEnv.does_dest_support_normalization, hs, hf]
        · cases b <;> cases hs : res.supports_normalization ddid ws <;>
            cases hf : (res.operations_response cid).find? (fun op => is_basic_normalization_operation op) <;>
            simp [RecM.bind_eq, RecM.bindR, RecM.pureR, hd, he, RecM.throwErr, RecM.callApi,
              ApiEnv.does_dest_support_normalization, hs, hf]

/-- When the intent is not an unsupported explicit `true`,
`reconcile_normalization` does not raise. -/
theorem reconcile_normalization_isOk (res : ApiEnv) (ex_id : Option String)
    (dest : InitedAirbyteDestination) (cfg : Option Bool) (ws : String)
    (h : ¬(cfg = some true ∧ dest_supports_normalization_flag res dest ws = false)) :
    ∃ v, (reconcile_normalization res ex_id dest cfg ws).result = Except.ok v := by
  rw [reconcile_normalization_result]
  by_cases hc : cfg = some false
  · simp [hc]
  · by_cases hsup : dest_supports_normalization_flag res dest ws
    · simp [hc, hsup]
    · by_cases ht : cfg = some true
      · exact absurd ⟨ht, by simpa using hsup⟩ h
      · simp [hc, hsup, ht]

/-- C10: in the post-phase with `dry_run = False`, when an observed connection
with the desired connection's name exists, the update branch indexes the
initialized-sources map by the connection's name; when the connection's name
is not a key of that map, the step raises an unguarded `KeyError` and no
`/connections/update` request is issued. -/
theorem post_update_keyerror_on_conn_name (res : ApiEnv) (c : AirbyteConnection) (ws : String)
    (init_sources : List (String × InitedAirbyteSource))
    (init_dests : List (String × InitedAirbyteDestination))
    (m : List (String × InitedAirbyteConnection)) (e : InitedAirbyteConnection)
    (dI : InitedAirbyteDestination) (sI : InitedAirbyteSource) (cs : List JsonV)
    (hdec : decode_connections res.connections_response_b init_sources init_dests = Except.ok m)
    (hex : alookup c.name m = some e)
    (hnn : alookup "name" m = none)
    (hdst : alookup c.destination.name init_dests = some dI)
    (hsrc : alookup c.source.name init_sources = some sI)
    (hnof : ¬(c.normalize_data = some true ∧
      dest_supports_normalization_flag res dI ws = false))
    (hbs : build_configured_streams (res.schema_response sI.source_id) c.stream_config =
      Except.ok cs)
    (hnosrc : alookup c.name init_sources = none) :
    (reconcile_connections_post res [(c.name, c)] init_sources init_dests ws false).result =
      Except.error ("KeyError: " ++ c.name) ∧
    (reconcile_connections_post res [(c.name, c)] init_sources init_dests ws false).trace.all
      (fun cl => cl.endpoint != "/connections/update") = true := by
  obtain ⟨v, hv⟩ := reconcile_normalization_isOk res none dI c.normalize_data ws hnof
  have hstep_result :
      (reconcile_connections_post_step res init_sources init_dests ws false m c.name c).result =
        Except.error ("KeyError: " ++ c.name) := by
    unfold reconcile_connections_post_step
    simp [RecM.bind_eq, RecM.bindR, dict_index, hdst, hnn, existing_connections_get_name_key,
      hsrc, hbs, hex, hnosrc, RecM.pureR, RecM.liftE, RecM.callApi, RecM.throwErr, hv,
      ApiEnv.get_source_schema]
  have hstep_trace :
      (reconcile_connections_post_step res init_sources init_dests ws false m c.name c).trace =
        (reconcile_normalization res none dI c.normalize_data ws).trace ++
          [⟨ "source/schema", [("sourceId", JsonV.s sI.source_id)]⟩] := by
    unfold reconcile_connections_post_step
    simp [RecM.bind_eq, RecM.bindR, dict_index, hdst, hnn, existing_connections_get_name_key,
      hsrc, hbs, hex, hnosrc, RecM.pureR, RecM.liftE, RecM.callApi, RecM.throwErr, hv,
      ApiEnv.get_source_schema]
  constructor
  · unfold reconcile_connections_post
    rw [RecM.result_bind]
    simp only [RecM.result_callApi]
    rw [RecM.result_bind]
    simp only [RecM.result_liftE, hdec]
    unfold reconcile_connections_post_go
    rw [RecM.result_bind, hstep_result]
  · unfold reconcile_connections_post
    rw [RecM.trace_bind]
    simp only [RecM.result_callApi, RecM.trace_callApi]
    rw [RecM.trace_bind]
    simp only [RecM.result_liftE, RecM.trace_liftE, hdec]
    unfold reconcile_connections_post_go
    rw [RecM.trace_bind, hstep_result, hstep_trace]
    simp only [List.nil_append, List.all_cons, List.all_append, Bool.and_eq_true]
    refine ⟨by decide, ?_, by decide⟩
    have hall := reconcile_normalization_trace_endpoints res none dI c.normalize_data ws
    rw [List.all_eq_true] at hall ⊢
    intro cl hcl
    have := hall cl hcl
    simp only [List.contains_cons, List.contains_nil, Bool.or_eq_true, beq_iff_eq] at this
    simp only [bne_iff_ne, ne_eq]
    rcases this with h | h | h | h
    · rw [h]; decide
    · rw [h]; decide
    · rw [h]; decide
    · simp at h

/-- The source of the C10 witness scenario, named differently from the
connection. -/
def srcW : AirbyteSource := { name := "s1", source_type := "t", source_configuration := [] }

/-- Initialized form of `srcW`. -/
def initSrcW : InitedAirbyteSource :=
  { source := srcW, source_id := "sid", source_definition_id := some "sd" }

/-- The destination of the C10 witness scenario. -/
def dstW : AirbyteDestination := { name := "d1", destination_type := "u", destination_configuration := [] }

/-- Initialized form of `dstW`. -/
def initDstW : InitedAirbyteDestination :=
  { destination := dstW, destination_id := "did", destination_definition_id := some "dd" }

/-- The configured connection of the C10 witness scenario: its name `c1`
differs from every source name. -/
def connW : AirbyteConnection :=
  { name := "c1", source := srcW, destination := dstW
    normalize_data := some false, stream_config := [] }

/-- The observed connection record with the same name. -/
def connJsonW : ConnApiJson :=
  { name := "c1", connectionId := "cid", sourceId := "sid", destinationId := "did"
    normalize_data := some false, stream_config := [] }

/-- The decoded observed connection of the C10 witness scenario. -/
def decodedW : InitedAirbyteConnection :=
  { connection :=
      { name := "c1", source := srcW, destination := dstW
        normalize_data := some false, stream_config := [] }
    connection_id := "cid" }

/-- The oracle for the C10 witness scenario. -/
def envW : ApiEnv := { env0 with connections_response_b := [connJsonW] }

/-- Witness for C10: on a concrete pre-existing connection named `c1` with a
source named `s1`, apply raises `KeyError: c1` and never issues the update. -/
theorem post_update_keyerror_on_conn_name_witness :
    (reconcile_connections_post envW [("c1", connW)] [("s1", initSrcW)] [("d1", initDstW)]
        "ws" false).result = Except.error "KeyError: c1" ∧
    (reconcile_connections_post envW [("c1", connW)] [("s1", initSrcW)] [("d1", initDstW)]
        "ws" false).trace.all (fun cl => cl.endpoint != "/connections/update") = true :=
  post_update_keyerror_on_conn_name envW connW "ws" [("s1", initSrcW)] [("d1", initDstW)]
    [("c1", decodedW)] decodedW initDstW initSrcW [] rfl rfl rfl rfl rfl
    (by decide) rfl rfl

/-- The endpoints the source pass may call in dry-run (read-only). -/
def source_lookup_endpoints : List String := ["source_definitions/lookup"]

/-- All endpoints the source pass may call. -/
def source_phase_endpoints : List String :=
  ["source_definitions/lookup", "/sources/delete", "/sources/update", "/sources/create"]

/-- The endpoints the destination pass may call in dry-run (read-only). -/
def destination_lookup_endpoints : List String := ["destination_definitions/lookup"]

/-- All endpoints the destination pass may call. -/
def destination_phase_endpoints : List String :=
  ["destination_definitions/lookup", "/destinations/delete", "/destinations/update",
   "/destinations/create"]

/-- All endpoints the pre-phase may call. -/
def pre_phase_endpoints : List String := ["/connections/list", "/connections/delete"]

/-- All endpoints the post-phase may call. -/
def post_phase_endpoints : List String :=
  ["/connections/list", "/operations/list", "normalization/supports", "/operations/create",
   "source/schema", "source/catalog_id", "/connections/update", "/connections/create"]

/-- The read-only endpoints of the remote API surface. -/
def readonly_endpoints : List String :=
  ["workspace/get", "/sources/list", "/destinations/list", "/connections/list",
   "/operations/list", "source_definitions/lookup", "destination_definitions/lookup",
   "normalization/supports", "source/schema", "source/catalog_id"]

theorem RecM.traceAll_bind {α β : Type} {p : ApiCall → Bool} {x : RecM α} {f : α → RecM β}
    (hx : x.trace.all p = true) (hf : ∀ v, ((f v).trace.all p) = true) :
    ((x >>= f).trace.all p) = true :=
  RecM.traceAll_bindR hx hf

theorem RecM.traceAll_mono {p q : ApiCall → Bool} {t : List ApiCall}
    (h : t.all p = true) (hpq : ∀ c, p c = true → q c = true) : t.all q = true := by
  rw [List.all_eq_true] at h ⊢
  exact fun c hc => hpq c (h c hc)

theorem reconcile_sources_step_endpoints (res : ApiEnv)
    (cs : List (String × AirbyteSource)) (es : List (String × InitedAirbyteSource))
    (ws : String) (dr sd : Bool) (n : String)
    (acc : List (String × InitedAirbyteSource) × ManagedElementDiff) :
    (reconcile_sources_step res cs es ws dr sd n acc).trace.all
      (fun c => (if dr then source_lookup_endpoints else source_phase_endpoints).contains
        c.endpoint) = true := by
  unfold reconcile_sources_step
  rcases hc : alookup n cs with _ | cfg
  · rcases he : alookup n es with _ | e
    · cases dr <;> cases sd <;>
        simp_all [RecM.bind_eq, RecM.bindR, RecM.pureR, RecM.callApi, check_not_none,
          RecM.throwErr, source_lookup_endpoints, source_phase_endpoints]
    · cases dr <;> cases sd <;>
        simp_all [RecM.bind_eq, RecM.bindR, RecM.pureR, RecM.callApi, check_not_none,
          RecM.throwErr, source_lookup_endpoints, source_phase_endpoints]
  · rcases he : alookup n es with _ | e
    · rcases hd : res.source_defn_of cfg.source_type ws with _ | defn <;>
        cases dr <;> cases sd <;>
        simp_all [RecM.bind_eq, RecM.bindR, RecM.pureR, RecM.callApi, check_not_none,
          RecM.throwErr, ApiEnv.get_source_definition_by_name, source_lookup_endpoints,
          source_phase_endpoints]
    · rcases hd : res.source_defn_of cfg.source_type ws with _ | defn <;>
        cases hmr : cfg.must_be_recreated e.source <;>
        cases dr <;> cases sd <;>
        simp_all [RecM.bind_eq, RecM.bindR, RecM.pureR, RecM.callApi, check_not_none,
          RecM.throwErr, ApiEnv.get_source_definition_by_name, source_lookup_endpoints,
          source_phase_endpoints]

theorem reconcile_destinations_step_endpoints (res : ApiEnv)
    (cds : List (String × AirbyteDestination)) (eds : List (String × InitedAirbyteDestination))
    (ws : String) (dr sd : Bool) (n : String)
    (acc : List (String × InitedAirbyteDestination) × ManagedElementDiff) :
    (reconcile_destinations_step res cds eds ws dr sd n acc).trace.all
      (fun c => (if dr then destination_lookup_endpoints else destination_phase_endpoints).contains
        c.endpoint) = true := by
  unfold reconcile_destinations_step
  rcases hc : alookup n cds with _ | cfg
  · rcases he : alookup n eds with _ | e
    · cases dr <;> cases sd <;>
        simp_all [RecM.bind_eq, RecM.bindR, RecM.pureR, RecM.callApi, check_not_none,
          RecM.throwErr, destination_lookup_endpoints, destination_phase_endpoints]
    · cases dr <;> cases sd <;>
        simp_all [RecM.bind_eq, RecM.bindR, RecM.pureR, RecM.callApi, check_not_none,
          RecM.throwErr, destination_lookup_endpoints, destination_phase_endpoints]
  · rcases he : alookup n eds with _ | e
    · cases dr <;> cases sd <;>
        simp_all [RecM.bind_eq, RecM.bindR, RecM.pureR, RecM.callApi, check_not_none,
          RecM.throwErr, ApiEnv.get_destination_definition_by_name,
          destination_lookup_endpoints, destination_phase_endpoints]
    · cases hmr : cfg.must_be_recreated e.destination <;>
        cases dr <;> cases sd <;>
        simp_all [RecM.bind_eq, RecM.bindR, RecM.pureR, RecM.callApi, check_not_none,
          RecM.throwErr, ApiEnv.get_destination_definition_by_name,
          destination_lookup_endpoints, destination_phase_endpoints]

theorem reconcile_connections_pre_step_endpoints
    (ccs : List (String × AirbyteConnection)) (ecs : List (String × InitedAirbyteConnection))
    (dr sd : Bool) (n : String) (diff : ManagedElementDiff) :
    (reconcile_connections_pre_step ccs ecs dr sd n diff).trace.all
      (fun c => (if dr then ([] : List String) else ["/connections/delete"]).contains
        c.endpoint) = true := by
  unfold reconcile_connections_pre_step
  rcases hc : alookup n ccs with _ | cfg
  · rcases he : alookup n ecs with _ | e <;>
      cases dr <;> cases sd <;>
      simp_all [RecM.bind_eq, RecM.bindR, RecM.pureR, RecM.callApi]
  · rcases he : alookup n ecs with _ | e
    · cases dr <;> cases sd <;>
        simp_all [RecM.bind_eq, RecM.bindR, RecM.pureR, RecM.callApi]
    · cases hmr : cfg.must_be_recreated e.connection <;>
        cases dr <;> cases sd <;>
        simp_all [RecM.bind_eq, RecM.bindR, RecM.pureR, RecM.callApi]

/-- All endpoints one post-phase loop step may call. -/
def post_step_endpoints : List String :=
  ["/operations/list", "normalization/supports", "/operations/create",
   "source/schema", "source/catalog_id", "/connections/update", "/connections/create"]

theorem existing_connections_get_name_key_trace
    (ecs : List (String × InitedAirbyteConnection)) :
    (existing_connections_get_name_key ecs).trace = [] := by
  unfold existing_connections_get_name_key
  cases alookup "name" ecs <;> simp [RecM.pureR, RecM.throwErr]

theorem dict_index_trace {α : Type} (m : List (String × α)) (k : String) :
    (dict_index m k).trace = [] := by
  unfold dict_index
  cases alookup k m <;> simp [RecM.pureR, RecM.throwErr]

theorem reconcile_connections_post_step_endpoints (res : ApiEnv)
    (iss : List (String × InitedAirbyteSource)) (ids : List (String × InitedAirbyteDestination))
    (ws : String) (dr : Bool) (ecs : List (String × InitedAirbyteConnection))
    (n : String) (c : AirbyteConnection) :
    (reconcile_connections_post_step res iss ids ws dr ecs n c).trace.all
      (fun cl => (if dr then ([] : List String) else post_step_endpoints).contains
        cl.endpoint) = true := by
  cases dr with
  | true =>
    unfold reconcile_connections_post_step
    rcases hce : alookup n ecs with _ | e <;>
      simp [RecM.bind_eq, RecM.bindR, RecM.pureR, hce]
  | false =>
    unfold reconcile_connections_post_step
    have hsub : ∀ cl : ApiCall,
        ((["/operations/list", "normalization/supports", "/operations/create"] : List String).contains
          cl.endpoint) = true →
        ((if (false : Bool) then ([] : List String) else post_step_endpoints).contains
          cl.endpoint) = true := by
      intro cl hcl
      simp only [List.contains_cons, List.contains_nil, Bool.or_eq_true, beq_iff_eq] at hcl
      simp only [if_neg, Bool.false_eq_true, not_false_iff, post_step_endpoints,
        List.contains_cons, List.contains_nil, Bool.or_eq_true, beq_iff_eq]
      rcases hcl with h | h | h | h
      · exact Or.inl h
      · exact Or.inr (Or.inl h)
      · exact Or.inr (Or.inr (Or.inl h))
      · simp at h
    rcases hce : alookup n ecs with _ | e
    · simp only [Bool.not_false, if_true, hce]
      apply RecM.traceAll_bind
      · exact RecM.traceAll_dict_index ids c.destination.name
      intro destination
      apply RecM.traceAll_bind
      · rw [existing_connections_get_name_key_trace]
        rfl
      intro ex_id
      apply RecM.traceAll_bind
      · exact RecM.traceAll_mono
          (reconcile_normalization_trace_endpoints res ex_id destination c.normalize_data ws) hsub
      intro norm_id
      apply RecM.traceAll_bind
      · exact RecM.traceAll_dict_index iss c.source.name
      intro source
      apply RecM.traceAll_bind
      · simp [ApiEnv.get_source_schema, RecM.bind_eq, RecM.bindR, RecM.callApi, RecM.pureR,
          post_step_endpoints]
      intro base_streams
      apply RecM.traceAll_bind
      · rfl
      intro y
      apply RecM.traceAll_bind
      · exact RecM.traceAll_dict_index iss c.source.name
      intro source2
      apply RecM.traceAll_bind
      · exact RecM.traceAll_dict_index ids c.destination.name
      intro destination2
      apply RecM.traceAll_bind
      · simp [ApiEnv.get_source_catalog_id, RecM.bind_eq, RecM.bindR, RecM.callApi, RecM.pureR,
          post_step_endpoints]
      intro catalog_id
      simp [RecM.callApi, post_step_endpoints]
    · simp only [Bool.not_false, if_true, hce]
      apply RecM.traceAll_bind
      · exact RecM.traceAll_dict_index ids c.destination.name
      intro destination
      apply RecM.traceAll_bind
      · rw [existing_connections_get_name_key_trace]
        rfl
      intro ex_id
      apply RecM.traceAll_bind
      · exact RecM.traceAll_mono
          (reconcile_normalization_trace_endpoints res ex_id destination c.normalize_data ws) hsub
      intro norm_id
      apply RecM.traceAll_bind
      · exact RecM.traceAll_dict_index iss c.source.name
      intro source
      apply RecM.traceAll_bind
      · simp [ApiEnv.get_source_schema, RecM.bind_eq, RecM.bindR, RecM.callApi, RecM.pureR,
          post_step_endpoints]
      intro base_streams
      apply RecM.traceAll_bind
      · rfl
      intro y
      apply RecM.traceAll_bind
      · exact RecM.traceAll_dict_index iss n
      intro source2
      apply RecM.traceAll_bind
      · simp [ApiEnv.get_source_catalog_id, RecM.bind_eq, RecM.bindR, RecM.callApi, RecM.pureR,
          post_step_endpoints]
      intro catalog_id
      simp [RecM.callApi, post_step_endpoints]

theorem reconcile_sources_go_endpoints (res : ApiEnv)
    (cs : List (String × AirbyteSource)) (es : List (String × InitedAirbyteSource))
    (ws : String) (dr sd : Bool) (keys : List String) :
    ∀ acc, (reconcile_sources_go res cs es ws dr sd keys acc).trace.all
      (fun c => (if dr then source_lookup_endpoints else source_phase_endpoints).contains
        c.endpoint) = true := by
  induction keys with
  | nil => intro acc; rfl
  | cons k rest ih =>
    intro acc
    unfold reconcile_sources_go
    exact RecM.traceAll_bind (reconcile_sources_step_endpoints res cs es ws dr sd k acc)
      (fun acc2 => ih acc2)

theorem reconcile_sources_endpoints (res : ApiEnv)
    (cs : List (String × AirbyteSource)) (es : List (String × InitedAirbyteSource))
    (ws : String) (dr sd : Bool) :
    (reconcile_sources res cs es ws dr sd).trace.all
      (fun c => (if dr then source_lookup_endpoints else source_phase_endpoints).contains
        c.endpoint) = true :=
  reconcile_sources_go_endpoints res cs es ws dr sd _ _

theorem reconcile_destinations_go_endpoints (res : ApiEnv)
    (cds : List (String × AirbyteDestination)) (eds : List (String × InitedAirbyteDestination))
    (ws : String) (dr sd : Bool) (keys : List String) :
    ∀ acc, (reconcile_destinations_go res cds eds ws dr sd keys acc).trace.all
      (fun c => (if dr then destination_lookup_endpoints else destination_phase_endpoints).contains
        c.endpoint) = true := by
  induction keys with
  | nil => intro acc; rfl
  | cons k rest ih =>
    intro acc
    unfold reconcile_destinations_go
    exact RecM.traceAll_bind (reconcile_destinations_step_endpoints res cds eds ws dr sd k acc)
      (fun acc2 => ih acc2)

theorem reconcile_destinations_endpoints (res : ApiEnv)
    (cds : List (String × AirbyteDestination)) (eds : List (String × InitedAirbyteDestination))
    (ws : String) (dr sd : Bool) :
    (reconcile_destinations res cds eds ws dr sd).trace.all
      (fun c => (if dr then destination_lookup_endpoints else destination_phase_endpoints).contains
        c.endpoint) = true :=
  reconcile_destinations_go_endpoints res cds eds ws dr sd _ _

theorem reconcile_connections_pre_go_endpoints
    (ccs : List (String × AirbyteConnection)) (ecs : List (String × InitedAirbyteConnection))
    (dr sd : Bool) (keys : List String) :
    ∀ diff, (reconcile_connections_pre_go ccs ecs dr sd keys diff).trace.all
      (fun c => (if dr then ([] : List String) else ["/connections/delete"]).contains
        c.endpoint) = true := by
  induction keys with
  | nil => intro diff; rfl
  | cons k rest ih =>
    intro diff
    unfold reconcile_connections_pre_go
    exact RecM.traceAll_bind (reconcile_connections_pre_step_endpoints ccs ecs dr sd k diff)
      (fun d2 => ih d2)

theorem reconcile_connections_pre_endpoints (res : ApiEnv)
    (ccs : List (String × AirbyteConnection))
    (ess : List (String × InitedAirbyteSource)) (eds : List (String × InitedAirbyteDestination))
    (ws : String) (dr sd : Bool) :
    (reconcile_connections_pre res ccs ess eds ws dr sd).trace.all
      (fun c => (if dr then (["/connections/list"] : List String)
        else pre_phase_endpoints).contains c.endpoint) = true := by
  unfold reconcile_connections_pre
  apply RecM.traceAll_bind
  · cases dr <;> simp [RecM.callApi, pre_phase_endpoints]
  intro u
  apply RecM.traceAll_bind
  · rfl
  intro ecs
  apply RecM.traceAll_mono (reconcile_connections_pre_go_endpoints ccs ecs dr sd _ _)
  intro cl hcl
  cases dr
  · have h2 : cl.endpoint = "/connections/delete" := by simpa using hcl
    simp [pre_phase_endpoints, h2]
  · simp at hcl

theorem reconcile_connections_post_go_endpoints (res : ApiEnv)
    (iss : List (String × InitedAirbyteSource)) (ids : List (String × InitedAirbyteDestination))
    (ws : String) (dr : Bool) (ecs : List (String × InitedAirbyteConnection))
    (ccs : List (String × AirbyteConnection)) :
    (reconcile_connections_post_go res iss ids ws dr ecs ccs).trace.all
      (fun cl => (if dr then ([] : List String) else post_step_endpoints).contains
        cl.endpoint) = true := by
  induction ccs with
  | nil => rfl
  | cons hd rest ih =>
    obtain ⟨n, c⟩ := hd
    unfold reconcile_connections_post_go
    exact RecM.traceAll_bind
      (reconcile_connections_post_step_endpoints res iss ids ws dr ecs n c)
      (fun _ => ih)

theorem reconcile_connections_post_endpoints (res : ApiEnv)
    (ccs : List (String × AirbyteConnection))
    (iss : List (String × InitedAirbyteSource)) (ids : List (String × InitedAirbyteDestination))
    (ws : String) (dr : Bool) :
    (reconcile_connections_post res ccs iss ids ws dr).trace.all
      (fun cl => (if dr then (["/connections/list"] : List String)
        else post_phase_endpoints).contains cl.endpoint) = true := by
  unfold reconcile_connections_post
  apply RecM.traceAll_bind
  · cases dr <;> simp [RecM.callApi, post_phase_endpoints]
  intro u
  apply RecM.traceAll_bind
  · rfl
  intro ecs
  apply RecM.traceAll_mono (reconcile_connections_post_go_endpoints res iss ids ws dr ecs ccs)
  intro cl hcl
  cases dr
  · have h2 : cl.endpoint ∈ post_step_endpoints := by simpa using hcl
    have h3 : cl.endpoint ∈ post_phase_endpoints := by
      simp only [post_step_endpoints, List.mem_cons, List.not_mem_nil, or_false] at h2
      rcases h2 with h | h | h | h | h | h | h <;> simp [post_phase_endpoints, h]
    simpa using h3
  · simp at hcl

/-- The mutating endpoints of the remote API surface. -/
def mutating_endpoints : List String :=
  ["/sources/create", "/sources/update", "/sources/delete", "/destinations/create",
   "/destinations/update", "/destinations/delete", "/connections/create",
   "/connections/update", "/connections/delete", "/operations/create"]

/-- C1: with `dry_run = True`, `reconcile_config` issues only read-only calls
(lists and definition-id lookups) and zero mutating calls, for every oracle,
input configuration and `should_delete` flag. -/
theorem reconcile_config_dry_run_readonly (res : ApiEnv) (objects : List AirbyteConnection)
    (sd : Bool) :
    (reconcile_config res objects true sd).trace.all
      (fun c => readonly_endpoints.contains c.endpoint) = true ∧
    (reconcile_config res objects true sd).trace.all
      (fun c => !(mutating_endpoints.contains c.endpoint)) = true := by
  have hro : (reconcile_config res objects true sd).trace.all
      (fun c => readonly_endpoints.contains c.endpoint) = true := by
    unfold reconcile_config
    apply RecM.traceAll_bind
    · simp [ApiEnv.get_default_workspace, RecM.bind_eq, RecM.bindR, RecM.callApi,
        RecM.pureR, readonly_endpoints]
    intro ws
    apply RecM.traceAll_bind
    · simp [RecM.callApi, readonly_endpoints]
    intro u1
    apply RecM.traceAll_bind
    · simp [RecM.callApi, readonly_endpoints]
    intro u2
    apply RecM.traceAll_bind
    · apply RecM.traceAll_mono (reconcile_connections_pre_endpoints res _ _ _ ws true sd)
      intro cl hcl
      have h2 : cl.endpoint = "/connections/list" := by simpa using hcl
      simp [readonly_endpoints, h2]
    intro connections_diff
    apply RecM.traceAll_bind
    · apply RecM.traceAll_mono (reconcile_sources_endpoints res _ _ ws true sd)
      intro cl hcl
      have h2 : cl.endpoint = "source_definitions/lookup" := by
        simpa [source_lookup_endpoints] using hcl
      simp [readonly_endpoints, h2]
    intro srcs
    apply RecM.traceAll_bind
    · apply RecM.traceAll_mono (reconcile_destinations_endpoints res _ _ ws true sd)
      intro cl hcl
      have h2 : cl.endpoint = "destination_definitions/lookup" := by
        simpa [destination_lookup_endpoints] using hcl
      simp [readonly_endpoints, h2]
    intro dsts
    apply RecM.traceAll_bind
    · apply RecM.traceAll_mono (reconcile_connections_post_endpoints res _ _ _ ws true)
      intro cl hcl
      have h2 : cl.endpoint = "/connections/list" := by simpa using hcl
      simp [readonly_endpoints, h2]
    intro u3
    rfl
  refine ⟨hro, ?_⟩
  apply RecM.traceAll_mono hro
  intro cl hcl
  have h2 : cl.endpoint ∈ readonly_endpoints := by simpa using hcl
  simp only [readonly_endpoints, List.mem_cons, List.not_mem_nil, or_false] at h2
  rcases h2 with h | h | h | h | h | h | h | h | h | h <;>
    simp [mutating_endpoints, h]

theorem reconcile_sources_endpoints_any (res : ApiEnv)
    (cs : List (String × AirbyteSource)) (es : List (String × InitedAirbyteSource))
    (ws : String) (dr sd : Bool) :
    (reconcile_sources res cs es ws dr sd).trace.all
      (fun c => source_phase_endpoints.contains c.endpoint) = true := by
  apply RecM.traceAll_mono (reconcile_sources_endpoints res cs es ws dr sd)
  intro cl hcl
  cases dr
  · simpa using hcl
  · have h2 : cl.endpoint = "source_definitions/lookup" := by
      simpa [source_lookup_endpoints] using hcl
    simp [source_phase_endpoints, h2]

theorem reconcile_destinations_endpoints_any (res : ApiEnv)
    (cds : List (String × AirbyteDestination)) (eds : List (String × InitedAirbyteDestination))
    (ws : String) (dr sd : Bool) :
    (reconcile_destinations res cds eds ws dr sd).trace.all
      (fun c => destination_phase_endpoints.contains c.endpoint) = true := by
  apply RecM.traceAll_mono (reconcile_destinations_endpoints res cds eds ws dr sd)
  intro cl hcl
  cases dr
  · simpa using hcl
  · have h2 : cl.endpoint = "destination_definitions/lookup" := by
      simpa [destination_lookup_endpoints] using hcl
    simp [destination_phase_endpoints, h2]

theorem reconcile_connections_post_endpoints_any (res : ApiEnv)
    (ccs : List (String × AirbyteConnection))
    (iss : List (String × InitedAirbyteSource)) (ids : List (String × InitedAirbyteDestination))
    (ws : String) (dr : Bool) :
    (reconcile_connections_post res ccs iss ids ws dr).trace.all
      (fun c => post_phase_endpoints.contains c.endpoint) = true := by
  apply RecM.traceAll_mono (reconcile_connections_post_endpoints res ccs iss ids ws dr)
  intro cl hcl
  cases dr
  · simpa using hcl
  · have h2 : cl.endpoint = "/connections/list" := by simpa using hcl
    simp [post_phase_endpoints, h2]

/-- The trace of `reconcile_config` decomposes into the three inventory
fetches, the pre-phase trace, a middle segment drawn from the source and
destination passes, and a final segment drawn from the post-phase. -/
theorem reconcile_config_trace_decomp (res : ApiEnv) (objects : List AirbyteConnection)
    (dr sd : Bool) :
    ∃ t23 t4,
      (reconcile_config res objects dr sd).trace =
        [⟨ "workspace/get", []⟩,
         ⟨ "/sources/list", [("workspaceId", JsonV.s res.default_workspace)]⟩,
         ⟨ "/destinations/list", [("workspaceId", JsonV.s res.default_workspace)]⟩] ++
        (reconcile_connections_pre res (config_connections_of objects) (existing_sources_of res)
          (existing_dests_of res) res.default_workspace dr sd).trace ++ t23 ++ t4 ∧
      t23.all (fun c => (source_phase_endpoints ++ destination_phase_endpoints).contains
        c.endpoint) = true ∧
      t4.all (fun c => post_phase_endpoints.contains c.endpoint) = true := by
  unfold reconcile_config
  simp only [RecM.bind_eq, RecM.bindR, ApiEnv.result_get_default_workspace,
    ApiEnv.trace_get_default_workspace, RecM.result_callApi, RecM.trace_callApi]
  cases hP : (reconcile_connections_pre res (config_connections_of objects)
      (existing_sources_of res) (existing_dests_of res) res.default_workspace dr sd).result with
  | error e =>
    refine ⟨[], [], ?_, rfl, rfl⟩
    simp [hP]
  | ok cd =>
    cases hS : (reconcile_sources res (config_sources_of objects) (existing_sources_of res)
        res.default_workspace dr sd).result with
    | error e =>
      refine ⟨(reconcile_sources res (config_sources_of objects) (existing_sources_of res)
        res.default_workspace dr sd).trace, [], ?_, ?_, rfl⟩
      · simp [hP, hS]
      · apply RecM.traceAll_mono (reconcile_sources_endpoints_any res _ _ _ dr sd)
        intro cl hcl
        have h2 : cl.endpoint ∈ source_phase_endpoints := by simpa using hcl
        have : cl.endpoint ∈ source_phase_endpoints ++ destination_phase_endpoints :=
          List.mem_append_left _ h2
        simpa using this
    | ok srcs =>
      cases hD : (reconcile_destinations res (config_dests_of objects) (existing_dests_of res)
          res.default_workspace dr sd).result with
      | error e =>
        refine ⟨(reconcile_sources res (config_sources_of objects) (existing_sources_of res)
            res.default_workspace dr sd).trace ++
          (reconcile_destinations res (config_dests_of objects) (existing_dests_of res)
            res.default_workspace dr sd).trace, [], ?_, ?_, rfl⟩
        · simp [hP, hS, hD]
        · rw [List.all_append]
          refine Bool.and_eq_true _ _ |>.mpr ⟨?_, ?_⟩
          · apply RecM.traceAll_mono (reconcile_sources_endpoints_any res _ _ _ dr sd)
            intro cl hcl
            have h2 : cl.endpoint ∈ source_phase_endpoints := by simpa using hcl
            have : cl.endpoint ∈ source_phase_endpoints ++ destination_phase_endpoints :=
              List.mem_append_left _ h2
            simpa using this
          · apply RecM.traceAll_mono (reconcile_destinations_endpoints_any res _ _ _ dr sd)
            intro cl hcl
            have h2 : cl.endpoint ∈ destination_phase_endpoints := by simpa using hcl
            have : cl.endpoint ∈ source_phase_endpoints ++ destination_phase_endpoints :=
              List.mem_append_right _ h2
            simpa using this
      | ok dsts =>
        refine ⟨(reconcile_sources res (config_sources_of objects) (existing_sources_of res)
            res.default_workspace dr sd).trace ++
          (reconcile_destinations res (config_dests_of objects) (existing_dests_of res)
            res.default_workspace dr sd).trace,
          (reconcile_connections_post res (config_connections_of objects) srcs.1 dsts.1
            res.default_workspace dr).trace, ?_, ?_, ?_⟩
        · simp only [hP, hS, hD]
          cases hQ : (reconcile_connections_post res (config_connections_of objects) srcs.1
              dsts.1 res.default_workspace dr).result <;>
            simp [hQ]
        · rw [List.all_append]
          refine Bool.and_eq_true _ _ |>.mpr ⟨?_, ?_⟩
          · apply RecM.traceAll_mono (reconcile_sources_endpoints_any res _ _ _ dr sd)
            intro cl hcl
            have h2 : cl.endpoint ∈ source_phase_endpoints := by simpa using hcl
            have : cl.endpoint ∈ source_phase_endpoints ++ destination_phase_endpoints :=
              List.mem_append_left _ h2
            simpa using this
          · apply RecM.traceAll_mono (reconcile_destinations_endpoints_any res _ _ _ dr sd)
            intro cl hcl
            have h2 : cl.endpoint ∈ destination_phase_endpoints := by simpa using hcl
            have : cl.endpoint ∈ source_phase_endpoints ++ destination_phase_endpoints :=
              List.mem_append_right _ h2
            simpa using this
        · exact reconcile_connections_post_endpoints_any res _ _ _ _ dr

/-- If no call of `A` satisfies `Q` and no call of `B` satisfies `P`, then in
`A ++ B` every `P`-call comes strictly before every `Q`-call. -/
theorem before_of_append {P Q : ApiCall → Bool} (A B : List ApiCall)
    (hA : A.all (fun c => !(Q c)) = true) (hB : B.all (fun c => !(P c)) = true) :
    ∀ i j (hi : i < (A ++ B).length) (hj : j < (A ++ B).length),
      P ((A ++ B).get ⟨i, hi⟩) = true → Q ((A ++ B).get ⟨j, hj⟩) = true → i < j := by
  intro i j hi hj hPi hQj
  have hiA : i < A.length := by
    by_contra hge
    push_neg at hge
    have hilen : i - A.length < B.length := by
      have := hi
      simp only [List.length_append] at this
      omega
    have hmem : (A ++ B).get ⟨i, hi⟩ ∈ B := by
      rw [List.get_eq_getElem, List.getElem_append_right hge]
      exact List.getElem_mem _
    have := (List.all_eq_true.mp hB) _ hmem
    rw [hPi] at this
    simp at this
  have hjB : A.length ≤ j := by
    by_contra hlt
    push_neg at hlt
    have hmem : (A ++ B).get ⟨j, hj⟩ ∈ A := by
      rw [List.get_eq_getElem, List.getElem_append_left hlt]
      exact List.getElem_mem _
    have := (List.all_eq_true.mp hA) _ hmem
    rw [hQj] at this
    simp at this
  omega

theorem mem_dedupFirst {x : String} : ∀ {seen l : List String},
    x ∈ dedupFirst seen l ↔ x ∈ l ∧ x ∉ seen := by
  intro seen l
  induction l generalizing seen with
  | nil => simp [dedupFirst]
  | cons k rest ih =>
    by_cases hk : k ∈ seen
    · simp only [dedupFirst, if_pos hk, ih, List.mem_cons]
      constructor
      · rintro ⟨h1, h2⟩
        exact ⟨Or.inr h1, h2⟩
      · rintro ⟨h1 | h1, h2⟩
        · exact absurd (h1 ▸ hk) h2
        · exact ⟨h1, h2⟩
    · simp only [dedupFirst, if_neg hk, List.mem_cons, ih]
      constructor
      · rintro (h | ⟨h1, h2⟩)
        · exact ⟨Or.inl h, h ▸ hk⟩
        · refine ⟨Or.inr h1, ?_⟩
          intro hx
          exact h2 (Or.inr hx)
      · rintro ⟨h1 | h1, h2⟩
        · exact Or.inl h1
        · by_cases hxk : x = k
          · exact Or.inl hxk
          · refine Or.inr ⟨h1, ?_⟩
            intro hx
            rcases hx with h | h
            · exact hxk h
            · exact h2 h

theorem alookup_some_mem_keys {α : Type} {m : List (String × α)} {k : String} {v : α}
    (h : alookup k m = some v) : k ∈ m.map (fun p => p.1) := by
  induction m with
  | nil => simp [alookup] at h
  | cons hd tl ih =>
    obtain ⟨k2, v2⟩ := hd
    by_cases hk : k2 = k
    · simp [hk]
    · simp only [alookup, if_neg hk] at h
      simp [ih h]

theorem mem_unionKeys_left {α β : Type} {a : List (String × α)} (b : List (String × β))
    {k : String} (h : k ∈ a.map (fun p => p.1)) : k ∈ unionKeys a b := by
  rw [unionKeys, mem_dedupFirst]
  exact ⟨List.mem_append_left _ h, by simp⟩

theorem reconcile_connections_pre_step_isOk
    (ccs : List (String × AirbyteConnection)) (ecs : List (String × InitedAirbyteConnection))
    (dr sd : Bool) (n : String) (diff : ManagedElementDiff) :
    ∃ d, (reconcile_connections_pre_step ccs ecs dr sd n diff).result = Except.ok d := by
  unfold reconcile_connections_pre_step
  rcases hc : alookup n ccs with _ | cfg
  · rcases he : alookup n ecs with _ | e <;>
      cases dr <;> cases sd <;>
      simp [RecM.bind_eq, RecM.bindR, RecM.pureR, RecM.callApi]
  · rcases he : alookup n ecs with _ | e
    · cases dr <;> cases sd <;>
        simp [RecM.bind_eq, RecM.bindR, RecM.pureR, RecM.callApi]
    · cases hmr : cfg.must_be_recreated e.connection <;>
        cases dr <;> cases sd <;>
        simp [RecM.bind_eq, RecM.bindR, RecM.pureR, RecM.callApi, hmr]

theorem reconcile_connections_pre_step_trace_diff_indep
    (ccs : List (String × AirbyteConnection)) (ecs : List (String × InitedAirbyteConnection))
    (dr sd : Bool) (n : String) (d1 d2 : ManagedElementDiff) :
    (reconcile_connections_pre_step ccs ecs dr sd n d1).trace =
      (reconcile_connections_pre_step ccs ecs dr sd n d2).trace := by
  unfold reconcile_connections_pre_step
  rcases hc : alookup n ccs with _ | cfg
  · rcases he : alookup n ecs with _ | e <;>
      cases dr <;> cases sd <;>
      simp [RecM.bind_eq, RecM.bindR, RecM.pureR, RecM.callApi]
  · rcases he : alookup n ecs with _ | e
    · cases dr <;> cases sd <;>
        simp [RecM.bind_eq, RecM.bindR, RecM.pureR, RecM.callApi]
    · cases hmr : cfg.must_be_recreated e.connection <;>
        cases dr <;> cases sd <;>
        simp [RecM.bind_eq, RecM.bindR, RecM.pureR, RecM.callApi, hmr]

theorem reconcile_connections_pre_go_trace_mem
    (ccs : List (String × AirbyteConnection)) (ecs : List (String × InitedAirbyteConnection))
    (dr sd : Bool) (n : String) (c : ApiCall)
    (hc : c ∈ (reconcile_connections_pre_step ccs ecs dr sd n ManagedElementDiff.empty).trace) :
    ∀ keys diff, n ∈ keys →
      c ∈ (reconcile_connections_pre_go ccs ecs dr sd keys diff).trace := by
  intro keys
  induction keys with
  | nil => intro diff hn; simp at hn
  | cons k rest ih =>
    intro diff hn
    unfold reconcile_connections_pre_go
    obtain ⟨d2, hd2⟩ := reconcile_connections_pre_step_isOk ccs ecs dr sd k diff
    rw [RecM.trace_bind, hd2]
    rcases List.mem_cons.mp hn with hnk | hnk
    · subst hnk
      apply List.mem_append_left
      rw [reconcile_connections_pre_step_trace_diff_indep ccs ecs dr sd n diff
        ManagedElementDiff.empty]
      exact hc
    · exact List.mem_append_right _ (ih d2 hnk)

theorem reconcile_connections_pre_step_delete_trace
    (ccs : List (String × AirbyteConnection)) (ecs : List (String × InitedAirbyteConnection))
    (sd : Bool) (n : String) (diff : ManagedElementDiff) (c : AirbyteConnection)
    (e : InitedAirbyteConnection)
    (hc : alookup n ccs = some c) (he : alookup n ecs = some e)
    (hmr : c.must_be_recreated e.connection = true) :
    (reconcile_connections_pre_step ccs ecs false sd n diff).trace =
      [⟨ "/connections/delete", [("connectionId", JsonV.s e.connection_id)]⟩] := by
  unfold reconcile_connections_pre_step
  cases sd <;>
    simp [hc, he, hmr, RecM.bind_eq, RecM.bindR, RecM.pureR, RecM.callApi]

theorem reconcile_connections_pre_trace_mem (res : ApiEnv)
    (ccs : List (String × AirbyteConnection))
    (ess : List (String × InitedAirbyteSource)) (eds : List (String × InitedAirbyteDestination))
    (ws : String) (dr sd : Bool) (m : List (String × InitedAirbyteConnection))
    (hdec : decode_connections res.connections_response_a ess eds = Except.ok m)
    (c : ApiCall)
    (hc : c ∈ (reconcile_connections_pre_go ccs m dr sd (unionKeys ccs m)
      ManagedElementDiff.empty).trace) :
    c ∈ (reconcile_connections_pre res ccs ess eds ws dr sd).trace := by
  unfold reconcile_connections_pre
  rw [RecM.trace_bind]
  simp only [RecM.result_callApi, RecM.trace_callApi]
  rw [RecM.trace_bind]
  simp only [RecM.result_liftE, RecM.trace_liftE, hdec, List.nil_append]
  exact List.mem_cons_of_mem _ hc

/-- Classifier: a `/connections/delete` request. -/
def is_connection_delete (c : ApiCall) : Bool := c.endpoint == "/connections/delete"

/-- Classifier: a mutating request on the sources or destinations endpoints. -/
def is_source_or_destination_mutation (c : ApiCall) : Bool :=
  c.endpoint == "/sources/create" || c.endpoint == "/sources/update" ||
    c.endpoint == "/sources/delete" || c.endpoint == "/destinations/create" ||
    c.endpoint == "/destinations/update" || c.endpoint == "/destinations/delete"

/-- Classifier: a `/connections/create` or `/connections/update` request. -/
def is_connection_create_or_update (c : ApiCall) : Bool :=
  c.endpoint == "/connections/create" || c.endpoint == "/connections/update"

/-- C2: in an apply run (`dry_run = False`), a connection whose recreate
predicate fires against its observed counterpart has its `/connections/delete`
call issued, every `/connections/delete` call precedes every mutating call on
the sources/destinations endpoints, and every `/connections/create` or
`/connections/update` call comes after all of them (the post-phase runs after
both entity passes). -/
theorem connection_teardown_before_entity_recreate (res : ApiEnv)
    (objects : List AirbyteConnection) (sd : Bool) (name : String) (c : AirbyteConnection)
    (e : InitedAirbyteConnection) (m : List (String × InitedAirbyteConnection))
    (hdec : decode_connections res.connections_response_a (existing_sources_of res)
      (existing_dests_of res) = Except.ok m)
    (hc : alookup name (config_connections_of objects) = some c)
    (he : alookup name m = some e)
    (hmr : c.must_be_recreated e.connection = true) :
    ((⟨ "/connections/delete", [("connectionId", JsonV.s e.connection_id)]⟩ : ApiCall) ∈
      (reconcile_config res objects false sd).trace) ∧
    (∀ i j (hi : i < (reconcile_config res objects false sd).trace.length)
        (hj : j < (reconcile_config res objects false sd).trace.length),
      is_connection_delete ((reconcile_config res objects false sd).trace.get ⟨i, hi⟩) = true →
      is_source_or_destination_mutation
        ((reconcile_config res objects false sd).trace.get ⟨j, hj⟩) = true → i < j) ∧
    (∀ i j (hi : i < (reconcile_config res objects false sd).trace.length)
        (hj : j < (reconcile_config res objects false sd).trace.length),
      is_source_or_destination_mutation
        ((reconcile_config res objects false sd).trace.get ⟨i, hi⟩) = true →
      is_connection_create_or_update
        ((reconcile_config res objects false sd).trace.get ⟨j, hj⟩) = true → i < j) := by
  obtain ⟨t23, t4, htr, h23, h4⟩ := reconcile_config_trace_decomp res objects false sd
  have hpreT : (reconcile_connections_pre res (config_connections_of objects)
      (existing_sources_of res) (existing_dests_of res) res.default_workspace false sd).trace.all
      (fun cl => pre_phase_endpoints.contains cl.endpoint) = true := by
    have := reconcile_connections_pre_endpoints res (config_connections_of objects)
      (existing_sources_of res) (existing_dests_of res) res.default_workspace false sd
    simpa using this
  constructor
  · -- the delete call is issued, inside the pre-phase trace
    have hdel_step := reconcile_connections_pre_step_delete_trace (config_connections_of objects)
      m sd name ManagedElementDiff.empty c e hc he hmr
    have hmem_step :
        (⟨ "/connections/delete", [("connectionId", JsonV.s e.connection_id)]⟩ : ApiCall) ∈
          (reconcile_connections_pre_step (config_connections_of objects) m false sd name
            ManagedElementDiff.empty).trace := by
      rw [hdel_step]
      exact List.mem_singleton.mpr rfl
    have hkeys : name ∈ unionKeys (config_connections_of objects) m :=
      mem_unionKeys_left m (alookup_some_mem_keys hc)
    have hmem_go := reconcile_connections_pre_go_trace_mem (config_connections_of objects) m
      false sd name _ hmem_step (unionKeys (config_connections_of objects) m)
      ManagedElementDiff.empty hkeys
    have hmem_pre := reconcile_connections_pre_trace_mem res (config_connections_of objects)
      (existing_sources_of res) (existing_dests_of res) res.default_workspace false sd m hdec
      _ hmem_go
    rw [htr]
    exact List.mem_append_left _ (List.mem_append_left _ (List.mem_append_right _ hmem_pre))
  constructor
  · -- deletes strictly precede source/destination mutations
    have hT : (reconcile_config res objects false sd).trace =
        ([⟨ "workspace/get", []⟩,
          ⟨ "/sources/list", [("workspaceId", JsonV.s res.default_workspace)]⟩,
          ⟨ "/destinations/list", [("workspaceId", JsonV.s res.default_workspace)]⟩] ++
         (reconcile_connections_pre res (config_connections_of objects)
           (existing_sources_of res) (existing_dests_of res) res.default_workspace false sd).trace) ++
        (t23 ++ t4) := by
      rw [htr]
      simp [List.append_assoc]
    rw [hT]
    apply before_of_append
    · simp only [List.all_append, Bool.and_eq_true]
      refine ⟨rfl, ?_⟩
      apply RecM.traceAll_mono hpreT
      intro cl hcl
      have h2 : cl.endpoint ∈ pre_phase_endpoints := by simpa using hcl
      simp only [pre_phase_endpoints, List.mem_cons, List.not_mem_nil, or_false] at h2
      rcases h2 with h | h <;> simp [is_source_or_destination_mutation, h]
    · simp only [List.all_append, Bool.and_eq_true]
      refine ⟨?_, ?_⟩
      · apply RecM.traceAll_mono h23
        intro cl hcl
        have h2 : cl.endpoint ∈ source_phase_endpoints ++ destination_phase_endpoints := by
          simpa using hcl
        simp only [source_phase_endpoints, destination_phase_endpoints, List.mem_append,
          List.mem_cons, List.not_mem_nil, or_false] at h2
        rcases h2 with (h | h | h | h) | (h | h | h | h) <;>
          simp [is_connection_delete, h]
      · apply RecM.traceAll_mono h4
        intro cl hcl
        have h2 : cl.endpoint ∈ post_phase_endpoints := by simpa using hcl
        simp only [post_phase_endpoints, List.mem_cons, List.not_mem_nil, or_false] at h2
        rcases h2 with h | h | h | h | h | h | h | h <;>
          simp [is_connection_delete, h]
  · -- connection create/update only after the entity passes
    have hT2 : (reconcile_config res objects false sd).trace =
        (([⟨ "workspace/get", []⟩,
           ⟨ "/sources/list", [("workspaceId", JsonV.s res.default_workspace)]⟩,
           ⟨ "/destinations/list", [("workspaceId", JsonV.s res.default_workspace)]⟩] ++
          (reconcile_connections_pre res (config_connections_of objects)
            (existing_sources_of res) (existing_dests_of res) res.default_workspace false sd).trace) ++
         t23) ++ t4 := htr
    rw [hT2]
    apply before_of_append
    · simp only [List.all_append, Bool.and_eq_true]
      refine ⟨⟨rfl, ?_⟩, ?_⟩
      · apply RecM.traceAll_mono hpreT
        intro cl hcl
        have h2 : cl.endpoint ∈ pre_phase_endpoints := by simpa using hcl
        simp only [pre_phase_endpoints, List.mem_cons, List.not_mem_nil, or_false] at h2
        rcases h2 with h | h <;> simp [is_connection_create_or_update, h]
      · apply RecM.traceAll_mono h23
        intro cl hcl
        have h2 : cl.endpoint ∈ source_phase_endpoints ++ destination_phase_endpoints := by
          simpa using hcl
        simp only [source_phase_endpoints, destination_phase_endpoints, List.mem_append,
          List.mem_cons, List.not_mem_nil, or_false] at h2
        rcases h2 with (h | h | h | h) | (h | h | h | h) <;>
          simp [is_connection_create_or_update, h]
    · apply RecM.traceAll_mono h4
      intro cl hcl
      have h2 : cl.endpoint ∈ post_phase_endpoints := by simpa using hcl
      simp only [post_phase_endpoints, List.mem_cons, List.not_mem_nil, or_false] at h2
      rcases h2 with h | h | h | h | h | h | h | h <;>
        simp [is_source_or_destination_mutation, h]

/-- The configured source of the C2 witness scenario, whose type `t2` differs
from the observed type. -/
def srcT2 : AirbyteSource := { name := "s2", source_type := "t2", source_configuration := [] }

/-- The destination of the C2 witness scenario (same type on both sides). -/
def dstT : AirbyteDestination := { name := "d2", destination_type := "u1", destination_configuration := [] }

/-- The configured connection of the C2 witness scenario. -/
def connT : AirbyteConnection :=
  { name := "c2", source := srcT2, destination := dstT
    normalize_data := some false, stream_config := [] }

/-- The observed source record: same name `s2` but type `t1`. -/
def srcJsonT : SourceApiJson :=
  { name := "s2", sourceId := "sid2", sourceDefinitionId := "sdef", sourceName := "t1"
    connectionConfiguration := [] }

/-- The observed destination record. -/
def dstJsonT : DestApiJson :=
  { name := "d2", destinationId := "did2", destinationDefinitionId := "ddef"
    destinationName := "u1", connectionConfiguration := [] }

/-- The observed connection record, wired to the observed source and
destination ids. -/
def connJsonT : ConnApiJson :=
  { name := "c2", connectionId := "cid2", sourceId := "sid2", destinationId := "did2"
    normalize_data := some false, stream_config := [] }

/-- The oracle for the C2 witness scenario. -/
def envT : ApiEnv :=
  { env0 with
    sources_response := [srcJsonT]
    destinations_response := [dstJsonT]
    connections_response_a := [connJsonT] }

/-- The decoded observed connection of the C2 witness scenario: the source it
references still has type `t1`. -/
def decodedT : InitedAirbyteConnection :=
  { connection :=
      { name := "c2"
        source := { name := "s2", source_type := "t1", source_configuration := [] }
        destination := dstT
        normalize_data := some false, stream_config := [] }
    connection_id := "cid2" }

/-- Witness for C2: in the concrete scenario where connection `c2` references
a source whose type changed from `t1` to `t2`, the recreate predicate fires
and the apply run issues `/connections/delete` for the observed connection id
`cid2`. -/
theorem connection_teardown_before_entity_recreate_witness :
    (connT.must_be_recreated decodedT.connection = true) ∧
    ((⟨ "/connections/delete", [("connectionId", JsonV.s decodedT.connection_id)]⟩ : ApiCall) ∈
      (reconcile_config envT [connT] false false).trace) :=
  ⟨by decide,
    (connection_teardown_before_entity_recreate envT [connT] false "c2" connT decodedT
      [("c2", decodedT)] (by rfl) (by rfl) (by rfl) (by decide)).1⟩

theorem jsonv_beq_refl_aux : ∀ n : Nat,
    (∀ a : JsonV, sizeOf a ≤ n → JsonV.beq a a = true) ∧
    (∀ fs : List (String × JsonV), sizeOf fs ≤ n → JsonV.beqFields fs fs = true) ∧
    (∀ xs : List JsonV, sizeOf xs ≤ n → JsonV.beqArr xs xs = true) := by
  intro n
  induction n using Nat.strong_induction_on with
  | _ n ih =>
    refine ⟨?_, ?_, ?_⟩
    · intro a ha
      cases a with
      | s v => simp [JsonV.beq]
      | b v => simp [JsonV.beq]
      | i v => simp [JsonV.beq]
      | null => simp [JsonV.beq]
      | obj fields =>
        have hlt : sizeOf fields < n := by
          simp only [JsonV.obj.sizeOf_spec] at ha
          omega
        exact (ih (sizeOf fields) hlt).2.1 fields le_rfl
      | arr items =>
        have hlt : sizeOf items < n := by
          simp only [JsonV.arr.sizeOf_spec] at ha
          omega
        exact (ih (sizeOf items) hlt).2.2 items le_rfl
    · intro fs hfs
      cases fs with
      | nil => simp [JsonV.beqFields]
      | cons hd tl =>
        obtain ⟨k, v⟩ := hd
        have hv : sizeOf v < n := by
          simp only [List.cons.sizeOf_spec, Prod.mk.sizeOf_spec] at hfs
          omega
        have htl : sizeOf tl < n := by
          simp only [List.cons.sizeOf_spec, Prod.mk.sizeOf_spec] at hfs
          omega
        simp only [JsonV.beqFields, Bool.and_eq_true]
        exact ⟨⟨by simp, (ih (sizeOf v) hv).1 v le_rfl⟩, (ih (sizeOf tl) htl).2.1 tl le_rfl⟩
    · intro xs hxs
      cases xs with
      | nil => simp [JsonV.beqArr]
      | cons hd tl =>
        have hh : sizeOf hd < n := by
          simp only [List.cons.sizeOf_spec] at hxs
          omega
        have htl : sizeOf tl < n := by
          simp only [List.cons.sizeOf_spec] at hxs
          omega
        simp only [JsonV.beqArr, Bool.and_eq_true]
        exact ⟨(ih (sizeOf hd) hh).1 hd le_rfl, (ih (sizeOf tl) htl).2.2 tl le_rfl⟩

/-- Python `==` is reflexive on JSON values. -/
theorem JsonV.beq_refl (a : JsonV) : JsonV.beq a a = true :=
  (jsonv_beq_refl_aux (sizeOf a)).1 a le_rfl

/-- Evaluation of `is_empty` on an explicit diff node. -/
theorem ManagedElementDiff.is_empty_mk (adds dels : List (String × JsonV))
    (mods : List (String × JsonV × JsonV)) (nested : List (String × ManagedElementDiff)) :
    (ManagedElementDiff.mk adds dels mods nested).is_empty =
      (adds.isEmpty && dels.isEmpty && mods.isEmpty &&
        nested.all (fun p => p.2.is_empty)) := by
  rw [ManagedElementDiff.is_empty]
  have h : nested.attach.all (fun p => p.1.2.is_empty) = nested.all (fun p => p.2.is_empty) := by
    have hiff : (nested.attach.all (fun p => p.1.2.is_empty) = true) ↔
        (nested.all (fun p => p.2.is_empty) = true) := by
      simp [List.all_eq_true, List.mem_attach]
    cases hA : nested.attach.all (fun p => p.1.2.is_empty) <;>
      cases hB : nested.all (fun p => p.2.is_empty) <;> simp_all
  rw [h]

/-- `is_empty` through the field accessors. -/
theorem ManagedElementDiff.is_empty_eq (d : ManagedElementDiff) :
    d.is_empty = (d.additions.isEmpty && d.deletions.isEmpty && d.modifications.isEmpty &&
      d.nested.all (fun p => p.2.is_empty)) := by
  cases d
  rw [ManagedElementDiff.is_empty_mk]
  rfl

@[simp] theorem ManagedElementDiff.empty_is_empty : ManagedElementDiff.empty.is_empty = true := by
  rw [ManagedElementDiff.empty, ManagedElementDiff.is_empty_mk]
  rfl

theorem diff_keys_self_aux : ∀ n : Nat, ∀ a : List (String × JsonV), sizeOf a ≤ n →
    ∀ ks : List String, (diff_keys ks a a).is_empty = true := by
  intro n
  induction n using Nat.strong_induction_on with
  | _ n ih =>
    intro a ha ks
    induction ks with
    | nil => simp [diff_keys]
    | cons k ks ihk =>
      rw [diff_keys]
      cases hlo : alookup k a with
      | none => simpa using ihk
      | some va =>
        cases va with
        | obj fa =>
          have hsz : sizeOf fa < n := by
            have := alookup_sizeOf hlo
            simp only [JsonV.obj.sizeOf_spec] at this
            omega
          rw [ManagedElementDiff.is_empty_eq] at ihk ⊢
          simp only [ManagedElementDiff.additions, ManagedElementDiff.deletions,
            ManagedElementDiff.modifications, ManagedElementDiff.nested, List.all_cons,
            Bool.and_eq_true] at ihk ⊢
          refine ⟨⟨⟨ihk.1.1.1, ihk.1.1.2⟩, ihk.1.2⟩, ?_, ihk.2⟩
          exact ih (sizeOf fa) hsz fa le_rfl (unionKeys fa fa)
        | s v => simpa [JsonV.beq_refl] using ihk
        | b v => simpa [JsonV.beq_refl] using ihk
        | i v => simpa [JsonV.beq_refl] using ihk
        | null => simpa [JsonV.beq_refl] using ihk
        | arr items => simpa [JsonV.beq_refl] using ihk

/-- Diffing any configuration dictionary against itself is empty. -/
theorem diff_dicts_self_is_empty (a : List (String × JsonV)) :
    (diff_dicts a a).is_empty = true :=
  diff_keys_self_aux (sizeOf a) a le_rfl (unionKeys a a)

/-- A source diffed against an identical observed source yields the empty diff. -/
theorem diff_sources_self (c : AirbyteSource) :
    diff_sources (some c) (some c) = ManagedElementDiff.empty := by
  simp [diff_sources, diff_dicts_self_is_empty]

/-- A destination diffed against an identical observed destination yields the
empty diff. -/
theorem diff_destinations_self (c : AirbyteDestination) :
    diff_destinations (some c) (some c) = ManagedElementDiff.empty := by
  simp [diff_destinations, diff_dicts_self_is_empty]

/-- A connection diffed against an identical observed connection yields the
empty diff. -/
theorem diff_connections_self (c : AirbyteConnection) :
    diff_connections (some c) (some c) = ManagedElementDiff.empty := by
  simp [diff_connections, diff_dicts_self_is_empty]

/-- The configured source of the converged C3 scenario; its configuration
dictionary is arbitrary. -/
def srcC3 (sc : List (String × JsonV)) : AirbyteSource :=
  { name := "e", source_type := "t", source_configuration := sc }

/-- The configured destination of the converged C3 scenario. -/
def dstC3 (dc : List (String × JsonV)) : AirbyteDestination :=
  { name := "d", destination_type := "u", destination_configuration := dc }

/-- The configured connection of the converged C3 scenario.  Its name equals
the source name so that the post-phase `init_sources[conn_name]` lookup
succeeds. -/
def connC3 (sc dc : List (String × JsonV)) : AirbyteConnection :=
  { name := "e", source := srcC3 sc, destination := dstC3 dc
    normalize_data := some false, stream_config := [] }

/-- The observed source record, identical to the configured source. -/
def srcJsonC3 (sc : List (String × JsonV)) : SourceApiJson :=
  { name := "e", sourceId := "sid", sourceDefinitionId := "sdef", sourceName := "t"
    connectionConfiguration := sc }

/-- The observed destination record, identical to the configured destination. -/
def dstJsonC3 (dc : List (String × JsonV)) : DestApiJson :=
  { name := "d", destinationId := "did", destinationDefinitionId := "ddef"
    destinationName := "u", connectionConfiguration := dc }

/-- The observed connection record, wired to the observed source and
destination and identical to the configured connection. -/
def connJsonC3 : ConnApiJson :=
  { name := "e", connectionId := "cid", sourceId := "sid", destinationId := "did"
    normalize_data := some false, stream_config := [] }

/-- The oracle of the converged C3 scenario: the remote state matches the
desired configuration exactly and the definition lookups succeed. -/
def envC3 (sc dc : List (String × JsonV)) : ApiEnv :=
  { env0 with
    sources_response := [srcJsonC3 sc]
    destinations_response := [dstJsonC3 dc]
    connections_response_a := [connJsonC3]
    connections_response_b := [connJsonC3]
    source_defn_of := fun _ _ => some "sdef"
    destination_defn_of := fun _ _ => some "ddef" }

/-- On the converged scenario, `reconcile_config` in apply mode returns the
empty diff: every per-entity diff is a diagonal diff. -/
theorem reconcile_config_converged_result_empty (sc dc : List (String × JsonV)) :
    (reconcile_config (envC3 sc dc) [connC3 sc dc] false false).result =
      Except.ok ManagedElementDiff.empty := by
  have h : (reconcile_config (envC3 sc dc) [connC3 sc dc] false false).result =
      Except.ok (((ManagedElementDiff.empty.join
          (ManagedElementDiff.empty.join
            (diff_sources (some (srcC3 sc)) (some (srcC3 sc))))).join
        (ManagedElementDiff.empty.join
          (diff_destinations (some (dstC3 dc)) (some (dstC3 dc))))).join
        (ManagedElementDiff.empty.join
          (diff_connections (some (connC3 sc dc)) (some (connC3 sc dc))))) := rfl
  rw [h, diff_sources_self, diff_destinations_self, diff_connections_self]
  rfl

/-- C3 counterexample: a concrete converged scenario (remote state identical
to the desired configuration) on which `reconcile_config` with
`dry_run = False` does return the empty diff but still issues mutating API
calls, refuting the claim's "zero mutating calls". -/
theorem converged_apply_issues_mutating_calls :
    (reconcile_config (envC3 [("host", JsonV.s "h")] [("port", JsonV.i 5432)])
        [connC3 [("host", JsonV.s "h")] [("port", JsonV.i 5432)]] false false).result =
      Except.ok ManagedElementDiff.empty ∧
    ((reconcile_config (envC3 [("host", JsonV.s "h")] [("port", JsonV.i 5432)])
        [connC3 [("host", JsonV.s "h")] [("port", JsonV.i 5432)]] false false).trace.any
      (fun cl => mutating_endpoints.contains cl.endpoint)) = true :=
  ⟨reconcile_config_converged_result_empty _ _, by rfl⟩

/-- C3 (amended): on an already-converged state the apply run returns the
empty diff, but it is not mutation-free: it unconditionally re-issues one
update call per configured source, destination and connection
(`/sources/update`, `/destinations/update`, `/connections/update`), for every
configuration dictionary pair. -/
theorem converged_apply_empty_diff_but_mutating_updates (sc dc : List (String × JsonV)) :
    (reconcile_config (envC3 sc dc) [connC3 sc dc] false false).result =
      Except.ok ManagedElementDiff.empty ∧
    (((reconcile_config (envC3 sc dc) [connC3 sc dc] false false).trace.filter
      (fun cl => mutating_endpoints.contains cl.endpoint)).map (fun cl => cl.endpoint)) =
      ["/sources/update", "/destinations/update", "/connections/update"] :=
  ⟨reconcile_config_converged_result_empty sc dc, by rfl⟩
